import Mathlib

/-!
# The `Sender` of cnetworking (`src/sender.c`)

A shallow embedding of the packet crafting, update and configuration
operations of `sender.c`, followed by the properties proved about them.

Conventions of the embedding.

* The `Sender` object that every C function mutates through `_self` is an
  explicit state: each operation takes the state and returns the new one
  together with whatever it wrote (a packet, diagnostics).
* `u_int16_t` counters are natural numbers; every `x++` on one of them is
  `(x + 1) % 2 ^ 16`.  `int` values are integers.
* `exit(EXIT_FAILURE)` is the `Except.error` result; it carries the state
  of the sender at the moment the process terminates.
* Bytes are natural numbers; a byte buffer is a list of bytes.
* Functions that `sender.c` calls but does not define (codecs, checksum,
  address conversion) are fields of `Codec`, so that every general theorem
  holds for any implementation of them; `rfcCodec` is the instance the spec
  describes and is used to evaluate the code on concrete inputs.
* What the operating system answers (protocol lookup, socket, process id,
  interface address and MTU, the result of the `sendto` system call) is a
  field of `Host`; `sampleHost` is the one used on concrete inputs.
* What an operation does outside the sender (raw send, printed line, file
  written, semaphore and timer calls) is the list of `Event`s it returns, in
  the order of the calls.
* `Reachable` is the set of sender states that `Sender_new` followed by any
  sequence of the functions of `sender.c` can leave.
-/

namespace CNetworking

/-! ## Constants of the headers -/

/-- Modelled from the spec: the IP flag constants of the header file, which is
not among the sources (`SetIpFlags(don't-fragment=1, more-fragments=1)`). -/
def D_FLAG_SET : Int := 1

/-- Modelled from the spec: the cleared don't-fragment flag (header constant). -/
def D_FLAG_NOT_SET : Int := 0

/-- Modelled from the spec: the set more-fragments flag (header constant). -/
def M_FLAG_SET : Int := 1

/-- Modelled from the spec: the cleared more-fragments flag (header constant). -/
def M_FLAG_NOT_SET : Int := 0

/-- Modelled from the spec: the cleared reserved bit (header constant). -/
def X_FLAG_NOT_SET : Int := 0

/-- Modelled from the spec: ICMP type numbers of the header file (RFC 792). -/
def ICMP_ECHO_REPLY_TYPE : Nat := 0

/-- Modelled from the spec: ICMP Destination Unreachable (RFC 792). -/
def ICMP_DESTINATION_UNREACHABLE_TYPE : Nat := 3

/-- Modelled from the spec: ICMP Source Quench (RFC 792). -/
def ICMP_SOURCE_QUENCH_TYPE : Nat := 4

/-- Modelled from the spec: ICMP Redirect (RFC 792). -/
def ICMP_REDIRECT_TYPE : Nat := 5

/-- Modelled from the spec: ICMP Echo (RFC 792), `(8,0)` in the spec's scenario. -/
def ICMP_ECHO_TYPE : Nat := 8

/-- Modelled from the spec: ICMP Time Exceeded (RFC 792); the identifier is
spelled as `sender.c` spells it. -/
def ICMP_TIME_EXCEEEDED_TYPE : Nat := 11

/-- Modelled from the spec: ICMP Information Request (RFC 792). -/
def ICMP_INFORMATION_REQUEST_TYPE : Nat := 15

/-- Modelled from the spec: ICMP Information Reply (RFC 792). -/
def ICMP_INFORMATION_REPLY_TYPE : Nat := 16

/-- Modelled from the spec: the Fragmentation Needed code of Destination
Unreachable (RFC 792). -/
def ICMP_FRAGMENTATION_NEEDED_CODE : Nat := 4

/-- Modelled from the spec: `version=4`. -/
def IPv4 : Nat := 4

/-- Modelled from the spec: the bare IP header size, in bytes. -/
def IP_HEADER_SIZE : Nat := 20

/-- Modelled from the spec: the fixed size of the ICMP header, in bytes. -/
def ICMP_HEADER_SIZE : Nat := 8

/-- Modelled from the spec: the fixed size of the UDP header, in bytes. -/
def UDP_HEADER_SIZE : Nat := 8

/-! ## Data model -/

/-- Modelled from the spec: the IP flag configuration of the sender
(`_self->_params`): reserved bit, don't-fragment, more-fragments. -/
structure Parameters where
  _xf : Int
  _df : Int
  _mf : Int
deriving DecidableEq, Repr

/-- The fields of `struct sockaddr_in` that `sender.c` uses; `sin_port` and
`sin_addr` hold network byte order values. -/
structure SockAddrIn where
  sin_port : Nat
  sin_addr : Nat
deriving DecidableEq, Repr

/-- The fields of `struct protoent` that `sender.c` uses. -/
structure ProtoEnt where
  p_name : String
  p_proto : Nat
deriving DecidableEq, Repr

/-- Modelled from the spec: the pacing timer, an external object that tracks
a reference timestamp. -/
structure Timer where
  _previous : Nat
deriving DecidableEq, Repr

/-- Modelled from the spec: `struct Sender`, whose declaration is in a header
that is not among the sources.  One field per member that `Sender_new`
initialises; the three packet counters are 16-bit, and the message counter
is the `int` that `Sender_sendto` prints with `%d`. -/
structure Sender where
  _srcaddress : String
  _dstaddress : SockAddrIn
  _gateway : String
  _socket : Int
  _msgcnt : Int
  _proto : ProtoEnt
  _lastid : Nat
  _icmpsn : Nat
  _lsticmpid : Nat
  _verbose : Bool
  _timer : Option Timer
  _mtu : Int
  _synch : Bool
  _sent : Bool
  _params : Parameters
deriving DecidableEq, Repr

/-- Modelled from the spec: the four mutually exclusive shapes of the part of
the ICMP header that follows type, code and checksum. -/
inductive IcmpRest where
  | unused
  | redirect (gateway : Nat)
  | echo (id : Nat) (seqnum : Nat)
  | mtu (nexthop : Int)
deriving DecidableEq, Repr

/-- Modelled from the spec: the ICMP header. -/
structure IcmpHeader where
  _type : Nat
  _code : Nat
  _checksum : Nat
  _rest : IcmpRest
deriving DecidableEq, Repr

/-- Modelled from the spec: the ICMP sub-packet, header and payload bytes. -/
structure IcmpPacket where
  _icmphdr : IcmpHeader
  _payload : List Nat
deriving DecidableEq, Repr

/-- Modelled from the spec: the UDP header. -/
structure UdpHeader where
  _srcport : Nat
  _dstport : Nat
  _length : Nat
  _checksum : Nat
deriving DecidableEq, Repr

/-- Modelled from the spec: the UDP sub-packet, header and payload bytes. -/
structure UdpPacket where
  _hdr : UdpHeader
  _payload : List Nat
deriving DecidableEq, Repr

/-- Modelled from the spec: the IP header. -/
structure IpHeader where
  _version : Nat
  _dsf : Nat
  _tlength : Nat
  _id : Nat
  _flagoff : Nat
  _ttl : Nat
  _protocol : Nat
  _checksum : Nat
  _srcaddr : Nat
  _dstaddr : Nat
deriving DecidableEq, Repr

/-- Modelled from the spec: the payload of an IP packet is either an ICMP
sub-packet or a UDP sub-packet (tagged union, exactly one populated). -/
inductive IpPayload where
  | _icmp (p : IcmpPacket)
  | _udp (p : UdpPacket)
deriving DecidableEq, Repr

/-- Modelled from the spec: the IP packet, header and payload. -/
structure IpPacket where
  _iphdr : IpHeader
  _payload : IpPayload
deriving DecidableEq, Repr

/-- The functions and constants that `sender.c` uses and that are defined
outside it: the wire-format codecs, the checksum, the flag packing helpers,
the address and byte-order conversions and the default TTL. -/
structure Codec where
  computeChecksum : List Nat → Nat
  IcmpPacket_encode : IcmpPacket → List Nat
  UdpPacket_encode : UdpPacket → List Nat
  IpPacket_encode : IpPacket → List Nat
  computeFlagOff : Int → Int → Int → Nat → Nat
  computeDifferentiatedServiceField : Nat → Nat → Nat
  inet_network : String → Nat
  ntohl : Nat → Nat
  ntohs : Nat → Nat
  htons : Nat → Nat
  TTL_DEFAULT_VALUE : Nat

/-- The diagnostics `Sender_setIpFlags` prints on the error stream; each is
one pair of `fprintf(stderr, ...)` calls. -/
inductive Warning where
  | cannotSetBothFlags
  | flagsMustHaveCorrectValues
deriving DecidableEq, Repr

/-- The ways an operation ends without returning to its caller:
`undefinedIcmpType` is the `exit(EXIT_FAILURE)` of `Sender_fillIcmpHeader`
and carries the sender as it is when the process terminates;
`wrongPayload` is a read of the union member that the packet does not hold,
whose result C leaves undefined and the embedding does not model;
`socketError` and `sendtoError` are the two `handle_error` calls, fatal
according to the spec, with the descriptor they are given;
`unknownProtocol` is the dereference of the null pointer that
`getprotobyname` returns for a name it does not know. -/
inductive Stop where
  | undefinedIcmpType (atExit : Sender) (type : Nat)
  | wrongPayload
  | socketError (fd : Int)
  | sendtoError (fd : Int)
  | unknownProtocol
deriving DecidableEq, Repr

/-- The system the sender runs on: the calls of `Sender_new` and
`Sender_bsendto` whose results come from the operating system or from the
interface helpers, which are defined outside `sender.c`.  `inet_pton` gives
the address as `sin_addr` stores it; `sendto` gives the return value of the
system call for a socket, a buffer and a destination. -/
structure Host where
  getprotobyname : String → Option ProtoEnt
  socket : Nat → Int
  getpid : Nat
  getInterfaceIp : String → String
  getInterfaceMTU : String → Int
  inet_pton : String → Nat
  sendto : Int → List Nat → SockAddrIn → Int

/-- What an operation does to the world outside the sender, in the order it
does it: semaphore operations, the raw send, the line printed in verbose
mode, the file written in verbose mode, the timer calls, and the calls of
`Sender_delete`. -/
inductive Event where
  | semaphore_wait
  | semaphore_post
  | sendto (socket : Int) (buffer : List Nat) (dst : SockAddrIn)
  | printfSent (size : Nat)
  | writeToFile (filename : String) (buffer : List Nat)
  | Timer_resetPrevious
  | Timer_sleep (delay : ℚ)
  | sem_destroy
  | shutdown (socket : Int) (how : Int)
deriving DecidableEq, Repr

/-! ## Packet helpers -/

/-- Modelled from the spec: `IcmpHeader_setChecksum` writes the checksum field. -/
def IcmpHeader_setChecksum (h : IcmpHeader) (chks : Nat) : IcmpHeader :=
  { h with _checksum := chks }

/-- Modelled from the spec: the generic zero-padded header shape. -/
def IcmpPacket_fillHeader_v1 (p : IcmpPacket) (chks : Nat) : IcmpPacket :=
  { p with _icmphdr := { p._icmphdr with _checksum := chks, _rest := IcmpRest.unused } }

/-- Modelled from the spec: the gateway-address header shape. -/
def IcmpPacket_fillHeader_v2 (p : IcmpPacket) (chks : Nat) (gateway : Nat) : IcmpPacket :=
  { p with _icmphdr := { p._icmphdr with _checksum := chks, _rest := IcmpRest.redirect gateway } }

/-- Modelled from the spec: the identifier+sequence header shape. -/
def IcmpPacket_fillHeader_v3 (p : IcmpPacket) (chks : Nat) (id seqnum : Nat) : IcmpPacket :=
  { p with _icmphdr := { p._icmphdr with _checksum := chks, _rest := IcmpRest.echo id seqnum } }

/-- Modelled from the spec: the next-hop-MTU header shape.  The MTU is kept as
it is passed; the width of the field is declared outside `sender.c`. -/
def IcmpPacket_fillHeader_v4 (p : IcmpPacket) (chks : Nat) (mtu : Int) : IcmpPacket :=
  { p with _icmphdr := { p._icmphdr with _checksum := chks, _rest := IcmpRest.mtu mtu } }

/-- Modelled from the spec: `UdpHeader_setChecksum` writes the checksum field. -/
def UdpHeader_setChecksum (h : UdpHeader) (chks : Nat) : UdpHeader :=
  { h with _checksum := chks }

/-- Modelled from the spec: `IpHeader_setIdentfication` (spelled as in the
source) writes the identification field. -/
def IpHeader_setIdentfication (h : IpHeader) (id : Nat) : IpHeader :=
  { h with _id := id }

/-- Modelled from the spec: `IcmpHeader_setIdentifier` writes the identifier
of the identifier+sequence shape.  On a header that holds another shape the
sequence half, which C would read through the overlapping storage, is taken
as zero. -/
def IcmpHeader_setIdentifier (h : IcmpHeader) (id : Nat) : IcmpHeader :=
  match h._rest with
  | IcmpRest.echo _ seqnum => { h with _rest := IcmpRest.echo id seqnum }
  | _ => { h with _rest := IcmpRest.echo id 0 }

/-- Modelled from the spec: `IcmpHeader_setSequenceNumber` writes the sequence
number of the identifier+sequence shape.  On a header that holds another
shape the identifier half is taken as zero. -/
def IcmpHeader_setSequenceNumber (h : IcmpHeader) (seqnum : Nat) : IcmpHeader :=
  match h._rest with
  | IcmpRest.echo id _ => { h with _rest := IcmpRest.echo id seqnum }
  | _ => { h with _rest := IcmpRest.echo 0 seqnum }

/-- Modelled from the spec: `IcmpPacket_fillPayload` copies `size` bytes of
the given buffer into the payload. -/
def IcmpPacket_fillPayload (p : IcmpPacket) (data : List Nat) (size : Nat) : IcmpPacket :=
  { p with _payload := data.take size }

/-- Modelled from the spec: `UdpPacket_fillPayload` copies `size` bytes of the
given buffer into the payload. -/
def UdpPacket_fillPayload (p : UdpPacket) (data : List Nat) (size : Nat) : UdpPacket :=
  { p with _payload := data.take size }

/-- Modelled from the spec: `UdpPacket_getPacketSize`, the current total size
of the UDP sub-packet: header plus payload. -/
def UdpPacket_getPacketSize (p : UdpPacket) : Nat :=
  UDP_HEADER_SIZE + p._payload.length

/-- Modelled from the spec: `UdpPacket_fillHeader` writes every UDP header
field. -/
def UdpPacket_fillHeader (p : UdpPacket) (srcport dstport length checksum : Nat) : UdpPacket :=
  { p with _hdr :=
      { _srcport := srcport, _dstport := dstport, _length := length, _checksum := checksum } }

/-- The IP header of a packet that has just been allocated: nothing but the
total length is known. -/
def IpHeader_blank (tlength : Nat) : IpHeader :=
  { _version := 0, _dsf := 0, _tlength := tlength, _id := 0, _flagoff := 0, _ttl := 0,
    _protocol := 0, _checksum := 0, _srcaddr := 0, _dstaddr := 0 }

/-- Modelled from the spec: `IpPacket_newIcmp` allocates an IP packet carrying
an ICMP sub-packet of the given type and code, sized for a payload of `size`
bytes (taken as zero bytes until they are filled). -/
def IpPacket_newIcmp (type code size : Nat) : IpPacket :=
  { _iphdr := IpHeader_blank (IP_HEADER_SIZE + ICMP_HEADER_SIZE + size),
    _payload := IpPayload._icmp
      { _icmphdr := { _type := type, _code := code, _checksum := 0, _rest := IcmpRest.unused },
        _payload := List.replicate size 0 } }

/-- Modelled from the spec: `IpPacket_newUdp` allocates an IP packet carrying
a UDP sub-packet sized for a payload of `size` bytes (taken as zero bytes
until they are filled). -/
def IpPacket_newUdp (size : Nat) : IpPacket :=
  { _iphdr := IpHeader_blank (IP_HEADER_SIZE + UDP_HEADER_SIZE + size),
    _payload := IpPayload._udp
      { _hdr := { _srcport := 0, _dstport := 0, _length := 0, _checksum := 0 },
        _payload := List.replicate size 0 } }

/-- Modelled from the spec: `IpPacket_fillHeader` writes every IP header field. -/
def IpPacket_fillHeader (p : IpPacket)
    (version dsf tlength id flagoff ttl protocol checksum srcaddr dstaddr : Nat) : IpPacket :=
  { p with _iphdr :=
      { _version := version, _dsf := dsf, _tlength := tlength, _id := id,
        _flagoff := flagoff, _ttl := ttl, _protocol := protocol,
        _checksum := checksum, _srcaddr := srcaddr, _dstaddr := dstaddr } }

/-! ## Configuration (`sender.c`, lines 60-89) -/

/-- Source function `Sender_setTimer`. -/
def Sender_setTimer (self : Sender) (timer : Option Timer) : Sender :=
  { self with _timer := timer }

/-- Source function `Sender_setMtu`. -/
def Sender_setMtu (self : Sender) (mtu : Int) : Sender :=
  { self with _mtu := mtu }

/-- Source function `Sender_setIpFlags`: the new sender and what was printed on the error
stream, in the order it was printed.  The first `if` tests that both flags
are set, the second that both are neither unset nor set; the three
assignments follow unconditionally. -/
def Sender_setIpFlags (self : Sender) (d m : Int) : Sender × List Warning :=
  let err1 : List Warning :=
    if d = D_FLAG_SET ∧ m = M_FLAG_SET then [Warning.cannotSetBothFlags] else []
  let err2 : List Warning :=
    if (d ≠ D_FLAG_NOT_SET ∧ d ≠ D_FLAG_SET) ∧ (m ≠ M_FLAG_NOT_SET ∧ m ≠ M_FLAG_SET) then
      [Warning.flagsMustHaveCorrectValues]
    else []
  ({ self with _params := { _xf := X_FLAG_NOT_SET, _df := d, _mf := m } }, err1 ++ err2)

/-! ## Header filling (`sender.c`, lines 182-249) -/

/-- Source function `Sender_fillIpHeader`: the identification written is the counter before
its post-increment. -/
def Sender_fillIpHeader (E : Codec) (self : Sender) (pckt : IpPacket) : Sender × IpPacket :=
  let proto := self._proto.p_proto
  let dstaddr := E.ntohl self._dstaddress.sin_addr
  let srcaddr := E.inet_network self._srcaddress
  let flagoff := E.computeFlagOff self._params._xf self._params._df self._params._mf 0
  let dsf := E.computeDifferentiatedServiceField 0 0
  ({ self with _lastid := (self._lastid + 1) % 2 ^ 16 },
   IpPacket_fillHeader pckt IPv4 dsf pckt._iphdr._tlength self._lastid flagoff
     E.TTL_DEFAULT_VALUE proto 0 srcaddr dstaddr)

/-- Source function `Sender_fillIcmpHeader`: the dispatch on the ICMP type, in the order of
the source; the last branch is `exit(EXIT_FAILURE)`. -/
def Sender_fillIcmpHeader (E : Codec) (self : Sender) (pckt : IcmpPacket) (type code : Nat) :
    Except Stop (Sender × IcmpPacket) :=
  if type = ICMP_DESTINATION_UNREACHABLE_TYPE ∨ type = ICMP_SOURCE_QUENCH_TYPE ∨
      type = ICMP_TIME_EXCEEEDED_TYPE then
    if type = ICMP_DESTINATION_UNREACHABLE_TYPE ∧ code = ICMP_FRAGMENTATION_NEEDED_CODE then
      Except.ok (self, IcmpPacket_fillHeader_v4 pckt 0 self._mtu)
    else
      Except.ok (self, IcmpPacket_fillHeader_v1 pckt 0)
  else if type = ICMP_REDIRECT_TYPE then
    Except.ok (self, IcmpPacket_fillHeader_v2 pckt 0 (E.inet_network self._gateway))
  else if type = ICMP_ECHO_REPLY_TYPE ∨ type = ICMP_ECHO_TYPE ∨
      type = ICMP_INFORMATION_REQUEST_TYPE ∨ type = ICMP_INFORMATION_REPLY_TYPE then
    Except.ok
      ({ self with _lsticmpid := (self._lsticmpid + 1) % 2 ^ 16,
                   _icmpsn := (self._icmpsn + 1) % 2 ^ 16 },
       IcmpPacket_fillHeader_v3 pckt 0 self._lsticmpid self._icmpsn)
  else
    Except.error (Stop.undefinedIcmpType self type)

/-- Source function `Sender_fillUdpHeader`: the size is stored in a `u_int16_t` local. -/
def Sender_fillUdpHeader (E : Codec) (self : Sender) (pckt : UdpPacket) (srcport : Nat) :
    UdpPacket :=
  let dstport := E.ntohs self._dstaddress.sin_port
  let size := UdpPacket_getPacketSize pckt % 2 ^ 16
  UdpPacket_fillHeader pckt srcport dstport size 0

/-! ## Crafting (`sender.c`, lines 251-292) -/

/-- Source function `Sender_craftIcmp`.  `payload` is `none` for a `NULL` pointer. -/
def Sender_craftIcmp (E : Codec) (self : Sender) (type code : Nat)
    (payload : Option (List Nat)) (size : Nat) : Except Stop (Sender × IpPacket) :=
  let r := Sender_fillIpHeader E self (IpPacket_newIcmp type code size)
  match r.2._payload with
  | IpPayload._udp _ => Except.error Stop.wrongPayload
  | IpPayload._icmp icmp0 =>
    match Sender_fillIcmpHeader E r.1 icmp0 type code with
    | Except.error e => Except.error e
    | Except.ok (self2, icmp1) =>
      let icmp2 :=
        match payload with
        | some bytes => if size > 0 then IcmpPacket_fillPayload icmp1 bytes size else icmp1
        | none => icmp1
      let bbuff := E.IcmpPacket_encode icmp2
      let chks := E.computeChecksum bbuff
      Except.ok
        (self2,
         { _iphdr := r.2._iphdr,
           _payload := IpPayload._icmp
             { icmp2 with _icmphdr := IcmpHeader_setChecksum icmp2._icmphdr chks } })

/-- Source function `Sender_craftUdp`.  `payload` is `none` for a `NULL` pointer. -/
def Sender_craftUdp (E : Codec) (self : Sender) (port : Nat)
    (payload : Option (List Nat)) (size : Nat) : Except Stop (Sender × IpPacket) :=
  let r := Sender_fillIpHeader E self (IpPacket_newUdp size)
  match r.2._payload with
  | IpPayload._icmp _ => Except.error Stop.wrongPayload
  | IpPayload._udp udp0 =>
    let udp1 := Sender_fillUdpHeader E r.1 udp0 port
    let udp2 :=
      match payload with
      | some bytes => if size > 0 then UdpPacket_fillPayload udp1 bytes size else udp1
      | none => udp1
    let bbuff := E.UdpPacket_encode udp2
    let chks := E.computeChecksum bbuff
    Except.ok
      (r.1,
       { _iphdr := r.2._iphdr,
         _payload := IpPayload._udp
           { udp2 with _hdr := UdpHeader_setChecksum udp2._hdr chks } })

/-! ## Update path (`sender.c`, lines 305-337) -/

/-- Source function `Sender_updateIcmpPacket`: the encoding that is checksummed is the one of
the packet as it is after the identifier and sequence writes, with the
checksum field it already holds. -/
def Sender_updateIcmpPacket (E : Codec) (self : Sender) (pckt : IpPacket) :
    Except Stop (Sender × IpPacket) :=
  let iphdr := IpHeader_setIdentfication pckt._iphdr self._lastid
  let self1 := { self with _lastid := (self._lastid + 1) % 2 ^ 16 }
  match pckt._payload with
  | IpPayload._udp _ => Except.error Stop.wrongPayload
  | IpPayload._icmp icmp =>
    let type := icmp._icmphdr._type
    let r : Sender × IcmpHeader :=
      if type = ICMP_ECHO_TYPE ∨ type = ICMP_INFORMATION_REQUEST_TYPE then
        ({ self1 with _lsticmpid := (self1._lsticmpid + 1) % 2 ^ 16,
                      _icmpsn := (self1._icmpsn + 1) % 2 ^ 16 },
         IcmpHeader_setSequenceNumber
           (IcmpHeader_setIdentifier icmp._icmphdr self1._lsticmpid) self1._icmpsn)
      else (self1, icmp._icmphdr)
    let icmp1 : IcmpPacket := { icmp with _icmphdr := r.2 }
    let bbuff := E.IcmpPacket_encode icmp1
    let chks := E.computeChecksum bbuff
    Except.ok
      (r.1,
       { _iphdr := iphdr,
         _payload := IpPayload._icmp
           { icmp1 with _icmphdr := IcmpHeader_setChecksum icmp1._icmphdr chks } })

/-- Source function `Sender_updateUdpPacket`: the encoding that is checksummed is the one of
the packet as it is, with the checksum field it already holds. -/
def Sender_updateUdpPacket (E : Codec) (self : Sender) (pckt : IpPacket) :
    Except Stop (Sender × IpPacket) :=
  let iphdr := IpHeader_setIdentfication pckt._iphdr self._lastid
  let self1 := { self with _lastid := (self._lastid + 1) % 2 ^ 16 }
  match pckt._payload with
  | IpPayload._icmp _ => Except.error Stop.wrongPayload
  | IpPayload._udp udp =>
    let bbuff := E.UdpPacket_encode udp
    let chks := E.computeChecksum bbuff
    Except.ok
      (self1,
       { _iphdr := iphdr,
         _payload := IpPayload._udp { udp with _hdr := UdpHeader_setChecksum udp._hdr chks } })

/-! ## The collaborators as the spec describes them -/

/-- A 16-bit value in network byte order. -/
def be16 (x : Nat) : List Nat :=
  [x / 256 % 256, x % 256]

/-- A 32-bit value in network byte order. -/
def be32 (x : Nat) : List Nat :=
  [x / 16777216 % 256, x / 65536 % 256, x / 256 % 256, x % 256]

/-- The sum of the 16-bit big-endian words of a buffer; an odd last byte is
the high byte of a word padded with zero. -/
def sumWords : List Nat → Nat
  | [] => 0
  | [b] => b * 256
  | hi :: lo :: rest => hi * 256 + lo + sumWords rest

/-- The carry fold: while the sum does not fit 16 bits, add its high part to
its low 16 bits.  The first argument bounds the number of rounds. -/
def foldCarry : Nat → Nat → Nat
  | 0, sum => sum
  | fuel + 1, sum =>
    if sum < 65536 then sum else foldCarry fuel (sum % 65536 + sum / 65536)

/-- Modelled from the spec: `computeChecksum`, the standard one's-complement
sum-with-carry-fold over 16-bit words, complemented.  It is defined outside
`sender.c`. -/
def computeChecksum (buffer : List Nat) : Nat :=
  65535 - foldCarry (sumWords buffer) (sumWords buffer)

/-- The four bytes that follow type, code and checksum on the wire. -/
def IcmpRest_encode : IcmpRest → List Nat
  | IcmpRest.unused => [0, 0, 0, 0]
  | IcmpRest.redirect gateway => be32 gateway
  | IcmpRest.echo id seqnum => be16 id ++ be16 seqnum
  | IcmpRest.mtu nexthop => [0, 0] ++ be16 (nexthop % 65536).toNat

/-- Modelled from the spec: `IcmpPacket_encode`, the wire layout of the ICMP
sub-packet in network byte order: type, code, checksum, the shape-dependent
four bytes, payload.  It is defined outside `sender.c`. -/
def IcmpPacket_encode (p : IcmpPacket) : List Nat :=
  [p._icmphdr._type % 256, p._icmphdr._code % 256] ++ be16 p._icmphdr._checksum ++
    IcmpRest_encode p._icmphdr._rest ++ p._payload

/-- Modelled from the spec: `UdpPacket_encode`, the wire layout of the UDP
sub-packet in network byte order: source port, destination port, length,
checksum, payload.  It is defined outside `sender.c`. -/
def UdpPacket_encode (p : UdpPacket) : List Nat :=
  be16 p._hdr._srcport ++ be16 p._hdr._dstport ++ be16 p._hdr._length ++
    be16 p._hdr._checksum ++ p._payload

/-- Modelled from the spec: the wire layout of the IP header (no options). -/
def IpHeader_encode (h : IpHeader) : List Nat :=
  [h._version % 16 * 16 + 5, h._dsf % 256] ++ be16 h._tlength ++ be16 h._id ++
    be16 h._flagoff ++ [h._ttl % 256, h._protocol % 256] ++ be16 h._checksum ++
    be32 h._srcaddr ++ be32 h._dstaddr

/-- Modelled from the spec: `IpPacket_encode`, the IP header followed by the
encoding of the sub-packet the packet holds.  It is defined outside
`sender.c`. -/
def IpPacket_encode (p : IpPacket) : List Nat :=
  IpHeader_encode p._iphdr ++
    (match p._payload with
     | IpPayload._icmp q => IcmpPacket_encode q
     | IpPayload._udp q => UdpPacket_encode q)

/-- Modelled from the spec: `computeFlagOff` packs reserved, don't-fragment,
more-fragments and the 13-bit offset into one 16-bit field. -/
def computeFlagOff (x d m : Int) (offset : Nat) : Nat :=
  ((x * 32768 + d * 16384 + m * 8192 + (offset : Int)) % 65536).toNat

/-- Modelled from the spec: `computeDifferentiatedServiceField` packs the two
sub-fields of the differentiated-services byte. -/
def computeDifferentiatedServiceField (dscp ecn : Nat) : Nat :=
  (dscp * 4 + ecn) % 256

/-- The dotted-quad reader behind `inet_network_dec`: `acc` holds the octets
already read, `cur` the decimal number being read. -/
def inet_network_go : List Char → Nat → Nat → Nat
  | [], acc, cur => acc * 256 + cur
  | c :: cs, acc, cur =>
    if c = '.' then inet_network_go cs (acc * 256 + cur) 0
    else inet_network_go cs acc (cur * 10 + (c.toNat - 48))

/-- The host byte order value of a decimal dotted-quad address, as the libc
function `inet_network` gives it for such an address. -/
def inet_network_dec (cp : String) : Nat :=
  inet_network_go cp.toList 0 0

/-- The byte swap of a 16-bit value: `ntohs` and `htons` on a little-endian
host. -/
def swap16 (x : Nat) : Nat :=
  x % 256 * 256 + x / 256 % 256

/-- The byte swap of a 32-bit value: `ntohl` on a little-endian host. -/
def swap32 (x : Nat) : Nat :=
  x % 256 * 16777216 + x / 256 % 256 * 65536 + x / 65536 % 256 * 256 + x / 16777216 % 256

/-- The collaborators as the spec describes them, on a little-endian host.
The default TTL is a constant of a header that is not among the sources; 64
is taken here. -/
def rfcCodec : Codec :=
  { computeChecksum := computeChecksum,
    IcmpPacket_encode := IcmpPacket_encode,
    UdpPacket_encode := UdpPacket_encode,
    IpPacket_encode := IpPacket_encode,
    computeFlagOff := computeFlagOff,
    computeDifferentiatedServiceField := computeDifferentiatedServiceField,
    inet_network := inet_network_dec,
    ntohl := swap32,
    ntohs := swap16,
    htons := swap16,
    TTL_DEFAULT_VALUE := 64 }

/-- A sender as `Sender_new` leaves it for interface address 192.0.2.1,
destination 203.0.113.5:0, protocol `icmp`, process id 4242 and interface MTU
1500: counters at their initial values, don't-fragment set. -/
def sampleSender : Sender :=
  { _srcaddress := "192.0.2.1",
    _dstaddress := { sin_port := 0, sin_addr := 91291851 },
    _gateway := "192.0.2.254",
    _socket := 3,
    _msgcnt := 0,
    _proto := { p_name := "icmp", p_proto := 1 },
    _lastid := 4242,
    _icmpsn := 0,
    _lsticmpid := 1,
    _verbose := false,
    _timer := none,
    _mtu := 1500,
    _synch := false,
    _sent := false,
    _params := { _xf := X_FLAG_NOT_SET, _df := D_FLAG_SET, _mf := M_FLAG_NOT_SET } }

/-- The sender of `sampleSender` for protocol `udp` and destination port 53
(stored in network byte order). -/
def sampleUdpSender : Sender :=
  { sampleSender with
    _dstaddress := { sin_port := 13568, sin_addr := 91291851 },
    _proto := { p_name := "udp", p_proto := 17 } }

/-- The four bytes of the payload "ping". -/
def pingBytes : List Nat := [112, 105, 110, 103]

/-! ## Predicates used in the statements -/

/-- The four query-style types of `Sender_fillIcmpHeader`: Echo Reply, Echo,
Information Request, Information Reply. -/
def queryIcmpType (type : Nat) : Prop :=
  type = ICMP_ECHO_REPLY_TYPE ∨ type = ICMP_ECHO_TYPE ∨
    type = ICMP_INFORMATION_REQUEST_TYPE ∨ type = ICMP_INFORMATION_REPLY_TYPE

instance (type : Nat) : Decidable (queryIcmpType type) := by
  unfold queryIcmpType; infer_instance

/-- The three error-reporting types of `Sender_fillIcmpHeader`: Destination
Unreachable, Source Quench, Time Exceeded. -/
def errorIcmpType (type : Nat) : Prop :=
  type = ICMP_DESTINATION_UNREACHABLE_TYPE ∨ type = ICMP_SOURCE_QUENCH_TYPE ∨
    type = ICMP_TIME_EXCEEEDED_TYPE

instance (type : Nat) : Decidable (errorIcmpType type) := by
  unfold errorIcmpType; infer_instance

/-- The eight types `Sender_fillIcmpHeader` has a branch for. -/
def supportedIcmpType (type : Nat) : Prop :=
  errorIcmpType type ∨ type = ICMP_REDIRECT_TYPE ∨ queryIcmpType type

instance (type : Nat) : Decidable (supportedIcmpType type) := by
  unfold supportedIcmpType; infer_instance

/-- The payload a crafted sub-packet holds: the first `size` bytes of the
given buffer when there is one and `size > 0`, else the `size` bytes of the
allocation. -/
def craftedPayload (payload : Option (List Nat)) (size : Nat) : List Nat :=
  match payload with
  | some bytes => if size > 0 then bytes.take size else List.replicate size 0
  | none => List.replicate size 0

/-- The ICMP sub-packet with its checksum field taken as zero. -/
def IcmpPacket.zeroChecksum (p : IcmpPacket) : IcmpPacket :=
  { p with _icmphdr := IcmpHeader_setChecksum p._icmphdr 0 }

/-- The UDP sub-packet with its checksum field taken as zero. -/
def UdpPacket.zeroChecksum (p : UdpPacket) : UdpPacket :=
  { p with _hdr := UdpHeader_setChecksum p._hdr 0 }

/-! ## Lifecycle (`sender.c`, lines 4-58) -/

/-- Source function `Sender_new`.  The protocol is looked up, the raw socket
opened (`-1` is fatal), the destination stored in network byte order, and
every field initialised; the identification is `(unsigned short)getpid()`. -/
def Sender_new (E : Codec) (H : Host) (interface dstaddr gateway : String) (dstport : Nat)
    (proto : String) (verbose : Bool) : Except Stop Sender :=
  match H.getprotobyname proto with
  | none => Except.error Stop.unknownProtocol
  | some pe =>
    let socketfd := H.socket pe.p_proto
    if socketfd = -1 then Except.error (Stop.socketError socketfd)
    else
      Except.ok
        { _srcaddress := H.getInterfaceIp interface,
          _dstaddress := { sin_port := E.htons dstport, sin_addr := H.inet_pton dstaddr },
          _gateway := gateway,
          _socket := socketfd,
          _msgcnt := 0,
          _proto := pe,
          _lastid := H.getpid % 2 ^ 16,
          _icmpsn := 0,
          _lsticmpid := 1,
          _verbose := verbose,
          _timer := none,
          _mtu := H.getInterfaceMTU interface,
          _synch := false,
          _sent := false,
          _params := { _xf := X_FLAG_NOT_SET, _df := D_FLAG_SET, _mf := M_FLAG_NOT_SET } }

/-- Source function `Sender_delete`: what it does to the world; the sender
does not exist afterwards. -/
def Sender_delete (self : Sender) : List Event :=
  (if self._synch then [Event.sem_destroy] else []) ++ [Event.shutdown self._socket 2]

/-! ## Transmission (`sender.c`, lines 91-137 and 294-303) -/

/-- Source function `Sender_bsendto`: a negative result of the system call is
fatal; the line is printed in verbose mode only.  The sender is not written. -/
def Sender_bsendto (H : Host) (self : Sender) (buffer : List Nat) : Except Stop (List Event) :=
  if H.sendto self._socket buffer self._dstaddress < 0 then
    Except.error (Stop.sendtoError self._socket)
  else
    Except.ok
      ([Event.sendto self._socket buffer self._dstaddress] ++
        (if self._verbose then [Event.printfSent buffer.length] else []))

/-- The result of `snprintf(filename, 60, ...)`: at most 59 characters of the
formatted text are kept. -/
def snprintf60 (text : String) : String :=
  String.mk (text.toList.take 59)

/-- The text of the format `sent_%hu_%d_%s.bin` for an identification, a
message count and a protocol name. -/
def sentFileFormat (lastid : Nat) (msgcnt : Int) (name : String) : String :=
  ("sent_") ++ toString lastid ++ ("_") ++ toString msgcnt ++ ("_") ++ name ++ (".bin")

/-- The value an `int` holds after an addition: the sum kept on 32 bits in
two's complement, which is what the compiled `+=` leaves (2147483647 + 1 is
-2147483648); within the range of `int` it is the sum itself. -/
def wrapInt32 (x : Int) : Int :=
  (x + 2147483648) % 4294967296 - 2147483648

/-- Source function `Sender_sendto`.  The completion flag is cleared, the
packet encoded, the bytes sent, the message counter incremented (an `int`
addition), the file written in verbose mode under the name made of `_lastid`,
the new `_msgcnt` and the protocol name, and the completion flag set; the
semaphore is used in synchronized mode only. -/
def Sender_sendto (E : Codec) (H : Host) (self : Sender) (pckt : IpPacket) :
    Except Stop (Sender × List Event) :=
  let self1 := { self with _sent := false }
  let buffer := E.IpPacket_encode pckt
  let ev1 : List Event := if self1._synch then [Event.semaphore_wait] else []
  match Sender_bsendto H self1 buffer with
  | Except.error e => Except.error e
  | Except.ok ev2 =>
    let self2 := { self1 with _msgcnt := wrapInt32 (self1._msgcnt + 1) }
    let ev3 : List Event :=
      if self2._verbose then
        [Event.writeToFile
          (snprintf60 (sentFileFormat self2._lastid self2._msgcnt self2._proto.p_name)) buffer]
      else []
    let self3 := { self2 with _sent := true }
    let ev4 : List Event := if self3._synch then [Event.semaphore_post] else []
    Except.ok (self3, ev1 ++ ev2 ++ ev3 ++ ev4)

/-- Source function `Sender_send`: the timer is reset only when one is
attached; the sleep follows the send in every case. -/
def Sender_send (E : Codec) (H : Host) (self : Sender) (pckt : IpPacket) (delay : ℚ) :
    Except Stop (Sender × List Event) :=
  let ev1 : List Event :=
    match self._timer with
    | some _ => [Event.Timer_resetPrevious]
    | none => []
  match Sender_sendto E H self pckt with
  | Except.error e => Except.error e
  | Except.ok (self1, ev2) => Except.ok (self1, ev1 ++ ev2 ++ [Event.Timer_sleep delay])

/-! ## The packet shell (`sender.c`, lines 164-180) -/

/-- Modelled from the spec: `craftIpPacket` allocates a packet shell, with no
payload, and writes its header from the arguments: the two service sub-fields
and the three flags with the fragment offset are packed by the combining
functions that `Sender_fillIpHeader` calls.  The shell is represented by its
header.  It is defined outside `sender.c`. -/
def craftIpPacket (E : Codec) (version dscp ecn tlength id : Nat) (xf df mf : Int)
    (offset ttl protocol checksum srcaddr dstaddr : Nat) : IpHeader :=
  { _version := version,
    _dsf := E.computeDifferentiatedServiceField dscp ecn,
    _tlength := tlength,
    _id := id,
    _flagoff := E.computeFlagOff xf df mf offset,
    _ttl := ttl,
    _protocol := protocol,
    _checksum := checksum,
    _srcaddr := srcaddr,
    _dstaddr := dstaddr }

/-- Source function `Sender_createIpPacket`: the sender is read, not written;
the three flags passed to `craftIpPacket` are the ones the sender holds. -/
def Sender_createIpPacket (E : Codec) (self : Sender) (id : Nat) : Sender × IpHeader :=
  let proto := self._proto.p_proto
  let dstaddr := E.ntohl self._dstaddress.sin_addr
  let srcaddr := E.inet_network self._srcaddress
  let m := self._params._mf
  let d := self._params._df
  let x := self._params._xf
  (self,
   craftIpPacket E IPv4 0 0 IP_HEADER_SIZE id x d m 0 E.TTL_DEFAULT_VALUE proto 0 srcaddr dstaddr)

/-! ## Repeated updates and reachable states -/

/-- The result of `k` consecutive `Sender_updateIcmpPacket` calls on one
packet, with no other operation on the sender in between. -/
def Sender_updateIcmpPacket_times (E : Codec) : Nat → Sender → IpPacket →
    Except Stop (Sender × IpPacket)
  | 0, self, pckt => Except.ok (self, pckt)
  | k + 1, self, pckt =>
    match Sender_updateIcmpPacket E self pckt with
    | Except.error e => Except.error e
    | Except.ok (self1, pckt1) => Sender_updateIcmpPacket_times E k self1 pckt1

/-- The result of `k` consecutive `Sender_updateUdpPacket` calls on one
packet, with no other operation on the sender in between. -/
def Sender_updateUdpPacket_times (E : Codec) : Nat → Sender → IpPacket →
    Except Stop (Sender × IpPacket)
  | 0, self, pckt => Except.ok (self, pckt)
  | k + 1, self, pckt =>
    match Sender_updateUdpPacket E self pckt with
    | Except.error e => Except.error e
    | Except.ok (self1, pckt1) => Sender_updateUdpPacket_times E k self1 pckt1

/-- One operation of `sender.c` on a sender: `Step E H s t` holds when some
function of the file, called on the sender `s` with some arguments, returns
and leaves the sender `t`.  `Sender_sendc` never returns; what it does to the
sender is a sequence of `Sender_sendto` steps.  `Sender_printInfo` and
`Sender_getDestinationIP` take a `const` sender. -/
inductive Step (E : Codec) (H : Host) : Sender → Sender → Prop where
  | setTimer (s : Sender) (timer : Option Timer) : Step E H s (Sender_setTimer s timer)
  | setMtu (s : Sender) (mtu : Int) : Step E H s (Sender_setMtu s mtu)
  | setIpFlags (s : Sender) (d m : Int) : Step E H s (Sender_setIpFlags s d m).1
  | bsendto (s : Sender) (buffer : List Nat) (ev : List Event) :
      Sender_bsendto H s buffer = Except.ok ev → Step E H s s
  | sendto (s t : Sender) (pckt : IpPacket) (ev : List Event) :
      Sender_sendto E H s pckt = Except.ok (t, ev) → Step E H s t
  | send (s t : Sender) (pckt : IpPacket) (delay : ℚ) (ev : List Event) :
      Sender_send E H s pckt delay = Except.ok (t, ev) → Step E H s t
  | printInfo (s : Sender) : Step E H s s
  | getDestinationIP (s : Sender) : Step E H s s
  | createIpPacket (s : Sender) (id : Nat) : Step E H s (Sender_createIpPacket E s id).1
  | fillIpHeader (s : Sender) (pckt : IpPacket) : Step E H s (Sender_fillIpHeader E s pckt).1
  | fillIcmpHeader (s t : Sender) (pckt pckt2 : IcmpPacket) (type code : Nat) :
      Sender_fillIcmpHeader E s pckt type code = Except.ok (t, pckt2) → Step E H s t
  | fillUdpHeader (s : Sender) : Step E H s s
  | craftIcmp (s t : Sender) (type code : Nat) (payload : Option (List Nat)) (size : Nat)
      (pckt : IpPacket) :
      Sender_craftIcmp E s type code payload size = Except.ok (t, pckt) → Step E H s t
  | craftUdp (s t : Sender) (port : Nat) (payload : Option (List Nat)) (size : Nat)
      (pckt : IpPacket) :
      Sender_craftUdp E s port payload size = Except.ok (t, pckt) → Step E H s t
  | updateIcmpPacket (s t : Sender) (pckt pckt2 : IpPacket) :
      Sender_updateIcmpPacket E s pckt = Except.ok (t, pckt2) → Step E H s t
  | updateUdpPacket (s t : Sender) (pckt pckt2 : IpPacket) :
      Sender_updateUdpPacket E s pckt = Except.ok (t, pckt2) → Step E H s t

/-- The sender states reachable from `Sender_new` by any sequence of the
operations of `sender.c`. -/
inductive Reachable (E : Codec) (H : Host) : Sender → Prop where
  | new (interface dstaddr gateway : String) (dstport : Nat) (proto : String) (verbose : Bool)
      (s : Sender) :
      Sender_new E H interface dstaddr gateway dstport proto verbose = Except.ok s →
      Reachable E H s
  | step (s t : Sender) : Reachable E H s → Step E H s t → Reachable E H t

/-- A host for the examples: process id 4242, interface address 192.0.2.1 and
MTU 1500, socket descriptor 3, the protocols `icmp` (1) and `udp` (17), the
destination 203.0.113.5 and a `sendto` that reports every byte sent. -/
def sampleHost : Host :=
  { getprotobyname := fun name =>
      if name = ("icmp") then some { p_name := "icmp", p_proto := 1 }
      else if name = ("udp") then some { p_name := "udp", p_proto := 17 }
      else none,
    socket := fun _ => 3,
    getpid := 4242,
    getInterfaceIp := fun _ => ("192.0.2.1"),
    getInterfaceMTU := fun _ => 1500,
    inet_pton := fun _ => 91291851,
    sendto := fun _ buffer _ => (buffer.length : Int) }

/-- The raw sends among the events. -/
def Event.isSendto : Event → Bool
  | Event.sendto _ _ _ => true
  | _ => false

/-- The events of one `Sender_sendto` call that returns, for a sender and the
bytes of the packet. -/
def sendtoEvents (self : Sender) (buffer : List Nat) : List Event :=
  (if self._synch then [Event.semaphore_wait] else []) ++
    ([Event.sendto self._socket buffer self._dstaddress] ++
      (if self._verbose then [Event.printfSent buffer.length] else [])) ++
    (if self._verbose then
      [Event.writeToFile
        (snprintf60
          (sentFileFormat self._lastid (wrapInt32 (self._msgcnt + 1)) self._proto.p_name))
        buffer]
     else []) ++
    (if self._synch then [Event.semaphore_post] else [])

/-! # Properties -/

/-! ## `Sender_setIpFlags` -/

/-- C7: for all integers `d` and `m`, after `Sender_setIpFlags(d, m)` the
stored don't-fragment flag is `d`, the more-fragments flag is `m`, the
reserved bit is cleared, and every other field of the sender is as before,
whatever was printed. -/
theorem Sender_setIpFlags_commits (self : Sender) (d m : Int) :
    (Sender_setIpFlags self d m).1._params._df = d ∧
    (Sender_setIpFlags self d m).1._params._mf = m ∧
    (Sender_setIpFlags self d m).1._params._xf = 0 ∧
    (Sender_setIpFlags self d m).1._srcaddress = self._srcaddress ∧
    (Sender_setIpFlags self d m).1._dstaddress = self._dstaddress ∧
    (Sender_setIpFlags self d m).1._gateway = self._gateway ∧
    (Sender_setIpFlags self d m).1._socket = self._socket ∧
    (Sender_setIpFlags self d m).1._msgcnt = self._msgcnt ∧
    (Sender_setIpFlags self d m).1._proto = self._proto ∧
    (Sender_setIpFlags self d m).1._lastid = self._lastid ∧
    (Sender_setIpFlags self d m).1._icmpsn = self._icmpsn ∧
    (Sender_setIpFlags self d m).1._lsticmpid = self._lsticmpid ∧
    (Sender_setIpFlags self d m).1._verbose = self._verbose ∧
    (Sender_setIpFlags self d m).1._timer = self._timer ∧
    (Sender_setIpFlags self d m).1._mtu = self._mtu ∧
    (Sender_setIpFlags self d m).1._synch = self._synch ∧
    (Sender_setIpFlags self d m).1._sent = self._sent := by
  simp [Sender_setIpFlags, X_FLAG_NOT_SET]

/-- The warning condition the code implements: something is printed exactly
when both flags are requested set, or both arguments are out of range. -/
theorem Sender_setIpFlags_warns_iff (self : Sender) (d m : Int) :
    (Sender_setIpFlags self d m).2 ≠ [] ↔
      (d = 1 ∧ m = 1) ∨ ((d ≠ 0 ∧ d ≠ 1) ∧ (m ≠ 0 ∧ m ≠ 1)) := by
  simp only [Sender_setIpFlags, D_FLAG_SET, M_FLAG_SET, D_FLAG_NOT_SET, M_FLAG_NOT_SET]
  by_cases h1 : d = 1 ∧ m = 1
  · simp [h1]
  · by_cases h2 : (d ≠ 0 ∧ d ≠ 1) ∧ (m ≠ 0 ∧ m ≠ 1)
    · simp [h1, h2]
    · simp [h1, h2]

/-- C8: with exactly one out-of-range argument, `d = 2` and `m = 0`,
`Sender_setIpFlags` prints nothing, although `d` is neither 0 nor 1; the
flags are committed all the same. -/
theorem Sender_setIpFlags_one_out_of_range_silent :
    (Sender_setIpFlags sampleSender 2 0).2 = [] ∧
    (Sender_setIpFlags sampleSender 2 0).1._params._df = 2 ∧
    (Sender_setIpFlags sampleSender 2 0).1._params._mf = 0 ∧
    (Sender_setIpFlags sampleSender 0 7).2 = [] ∧
    (Sender_setIpFlags sampleSender 2 7).2 = [Warning.flagsMustHaveCorrectValues] ∧
    (Sender_setIpFlags sampleSender 1 1).2 = [Warning.cannotSetBothFlags] ∧
    (Sender_setIpFlags sampleSender 1 0).2 = [] := by
  decide

/-! ## `Sender_fillIcmpHeader` -/

/-- The result of `Sender_fillIcmpHeader` on an error-reporting type. -/
theorem Sender_fillIcmpHeader_error_type (E : Codec) (self : Sender) (pckt : IcmpPacket)
    (type code : Nat) (h : errorIcmpType type) :
    Sender_fillIcmpHeader E self pckt type code =
      if type = ICMP_DESTINATION_UNREACHABLE_TYPE ∧ code = ICMP_FRAGMENTATION_NEEDED_CODE then
        Except.ok (self, IcmpPacket_fillHeader_v4 pckt 0 self._mtu)
      else Except.ok (self, IcmpPacket_fillHeader_v1 pckt 0) := by
  unfold errorIcmpType at h
  simp only [Sender_fillIcmpHeader, if_pos h]

/-- The result of `Sender_fillIcmpHeader` on Redirect. -/
theorem Sender_fillIcmpHeader_redirect_type (E : Codec) (self : Sender) (pckt : IcmpPacket)
    (code : Nat) :
    Sender_fillIcmpHeader E self pckt ICMP_REDIRECT_TYPE code =
      Except.ok (self, IcmpPacket_fillHeader_v2 pckt 0 (E.inet_network self._gateway)) := by
  simp [Sender_fillIcmpHeader, ICMP_REDIRECT_TYPE, ICMP_DESTINATION_UNREACHABLE_TYPE,
    ICMP_SOURCE_QUENCH_TYPE, ICMP_TIME_EXCEEEDED_TYPE]

/-- The result of `Sender_fillIcmpHeader` on a query-style type. -/
theorem Sender_fillIcmpHeader_query_type (E : Codec) (self : Sender) (pckt : IcmpPacket)
    (type code : Nat) (h : queryIcmpType type) :
    Sender_fillIcmpHeader E self pckt type code =
      Except.ok
        ({ self with _lsticmpid := (self._lsticmpid + 1) % 2 ^ 16,
                     _icmpsn := (self._icmpsn + 1) % 2 ^ 16 },
         IcmpPacket_fillHeader_v3 pckt 0 self._lsticmpid self._icmpsn) := by
  have h1 : ¬ (type = ICMP_DESTINATION_UNREACHABLE_TYPE ∨ type = ICMP_SOURCE_QUENCH_TYPE ∨
      type = ICMP_TIME_EXCEEEDED_TYPE) := by
    unfold queryIcmpType at h
    simp only [ICMP_ECHO_REPLY_TYPE, ICMP_ECHO_TYPE, ICMP_INFORMATION_REQUEST_TYPE,
      ICMP_INFORMATION_REPLY_TYPE] at h
    simp only [ICMP_DESTINATION_UNREACHABLE_TYPE, ICMP_SOURCE_QUENCH_TYPE,
      ICMP_TIME_EXCEEEDED_TYPE]
    omega
  have h2 : ¬ type = ICMP_REDIRECT_TYPE := by
    unfold queryIcmpType at h
    simp only [ICMP_ECHO_REPLY_TYPE, ICMP_ECHO_TYPE, ICMP_INFORMATION_REQUEST_TYPE,
      ICMP_INFORMATION_REPLY_TYPE] at h
    simp only [ICMP_REDIRECT_TYPE]
    omega
  unfold queryIcmpType at h
  simp only [Sender_fillIcmpHeader, if_neg h1, if_neg h2, if_pos h]

/-- The result of `Sender_fillIcmpHeader` on a type it has no branch for. -/
theorem Sender_fillIcmpHeader_other_type (E : Codec) (self : Sender) (pckt : IcmpPacket)
    (type code : Nat) (h : ¬ supportedIcmpType type) :
    Sender_fillIcmpHeader E self pckt type code =
      Except.error (Stop.undefinedIcmpType self type) := by
  unfold supportedIcmpType errorIcmpType queryIcmpType at h
  have h1 : ¬ (type = ICMP_DESTINATION_UNREACHABLE_TYPE ∨ type = ICMP_SOURCE_QUENCH_TYPE ∨
      type = ICMP_TIME_EXCEEEDED_TYPE) := fun c => h (Or.inl c)
  have h2 : ¬ type = ICMP_REDIRECT_TYPE := fun c => h (Or.inr (Or.inl c))
  have h3 : ¬ (type = ICMP_ECHO_REPLY_TYPE ∨ type = ICMP_ECHO_TYPE ∨
      type = ICMP_INFORMATION_REQUEST_TYPE ∨ type = ICMP_INFORMATION_REPLY_TYPE) :=
    fun c => h (Or.inr (Or.inr c))
  simp only [Sender_fillIcmpHeader, if_neg h1, if_neg h2, if_neg h3]

/-- On every supported type `Sender_fillIcmpHeader` returns. -/
theorem Sender_fillIcmpHeader_supported_ok (E : Codec) (self : Sender) (pckt : IcmpPacket)
    (type code : Nat) (h : supportedIcmpType type) :
    ∃ self2 pckt2, Sender_fillIcmpHeader E self pckt type code = Except.ok (self2, pckt2) := by
  rcases h with h | h | h
  · rw [Sender_fillIcmpHeader_error_type E self pckt type code h]
    split
    · exact ⟨_, _, rfl⟩
    · exact ⟨_, _, rfl⟩
  · subst h
    exact ⟨_, _, Sender_fillIcmpHeader_redirect_type E self pckt code⟩
  · exact ⟨_, _, Sender_fillIcmpHeader_query_type E self pckt type code h⟩

/-- C5: with identifier counter `a` and sequence counter `s`, on a query-style
type (Echo 8, Echo Reply 0, Information Request 15, Information Reply 16)
`Sender_fillIcmpHeader` fills the identifier+sequence shape with `a` and `s`
and leaves the counters at `(a+1) mod 2^16` and `(s+1) mod 2^16`; on a
supported non-query type (3, 4, 11, 5) it returns with both counters
unchanged. -/
theorem Sender_fillIcmpHeader_counters (E : Codec) (self : Sender) (pckt : IcmpPacket)
    (type code : Nat) :
    (type = 8 ∨ type = 0 ∨ type = 15 ∨ type = 16 →
      ∃ self2 pckt2, Sender_fillIcmpHeader E self pckt type code = Except.ok (self2, pckt2) ∧
        pckt2._icmphdr._rest = IcmpRest.echo self._lsticmpid self._icmpsn ∧
        self2._lsticmpid = (self._lsticmpid + 1) % 2 ^ 16 ∧
        self2._icmpsn = (self._icmpsn + 1) % 2 ^ 16) ∧
    (type = 3 ∨ type = 4 ∨ type = 11 ∨ type = 5 →
      ∃ self2 pckt2, Sender_fillIcmpHeader E self pckt type code = Except.ok (self2, pckt2) ∧
        self2._lsticmpid = self._lsticmpid ∧ self2._icmpsn = self._icmpsn) := by
  constructor
  · intro h
    have hq : queryIcmpType type := by
      unfold queryIcmpType
      simp only [ICMP_ECHO_REPLY_TYPE, ICMP_ECHO_TYPE, ICMP_INFORMATION_REQUEST_TYPE,
        ICMP_INFORMATION_REPLY_TYPE]
      omega
    exact ⟨_, _, Sender_fillIcmpHeader_query_type E self pckt type code hq, rfl, rfl, rfl⟩
  · intro h
    by_cases h5 : type = 5
    · subst h5
      exact ⟨_, _, Sender_fillIcmpHeader_redirect_type E self pckt code, rfl, rfl⟩
    · have he : errorIcmpType type := by
        unfold errorIcmpType
        simp only [ICMP_DESTINATION_UNREACHABLE_TYPE, ICMP_SOURCE_QUENCH_TYPE,
          ICMP_TIME_EXCEEEDED_TYPE]
        omega
      rw [Sender_fillIcmpHeader_error_type E self pckt type code he]
      split
      · exact ⟨_, _, rfl, rfl, rfl⟩
      · exact ⟨_, _, rfl, rfl, rfl⟩

/-- The instance of C5 at the first Echo of `sampleSender` and at a Time
Exceeded. -/
theorem Sender_fillIcmpHeader_counters_witness :
    (∃ self2 pckt2,
      Sender_fillIcmpHeader rfcCodec sampleSender
        { _icmphdr := { _type := 8, _code := 0, _checksum := 0, _rest := IcmpRest.unused },
          _payload := pingBytes } 8 0 = Except.ok (self2, pckt2) ∧
        pckt2._icmphdr._rest = IcmpRest.echo sampleSender._lsticmpid sampleSender._icmpsn ∧
        self2._lsticmpid = (sampleSender._lsticmpid + 1) % 2 ^ 16 ∧
        self2._icmpsn = (sampleSender._icmpsn + 1) % 2 ^ 16) ∧
    (∃ self2 pckt2,
      Sender_fillIcmpHeader rfcCodec sampleSender
        { _icmphdr := { _type := 11, _code := 0, _checksum := 0, _rest := IcmpRest.unused },
          _payload := pingBytes } 11 0 = Except.ok (self2, pckt2) ∧
        self2._lsticmpid = sampleSender._lsticmpid ∧ self2._icmpsn = sampleSender._icmpsn) :=
  ⟨(Sender_fillIcmpHeader_counters rfcCodec sampleSender _ 8 0).1 (Or.inl rfl),
   (Sender_fillIcmpHeader_counters rfcCodec sampleSender _ 11 0).2 (Or.inr (Or.inr (Or.inl rfl)))⟩

/-- C9: `Sender_fillIcmpHeader` exits fatally exactly when the type is none of
3, 4, 11, 5, 0, 8, 15, 16; on each of these eight it returns, whatever the
code; and at the fatal exit the sender is the one the call received, so no
ICMP counter has been advanced. -/
theorem Sender_fillIcmpHeader_fatal_iff (E : Codec) (self : Sender) (pckt : IcmpPacket)
    (type code : Nat) :
    ((∃ e, Sender_fillIcmpHeader E self pckt type code = Except.error e) ↔
      ¬ (type = 3 ∨ type = 4 ∨ type = 11 ∨ type = 5 ∨ type = 0 ∨ type = 8 ∨ type = 15 ∨
          type = 16)) ∧
    ((∃ self2 pckt2, Sender_fillIcmpHeader E self pckt type code = Except.ok (self2, pckt2)) ↔
      (type = 3 ∨ type = 4 ∨ type = 11 ∨ type = 5 ∨ type = 0 ∨ type = 8 ∨ type = 15 ∨
          type = 16)) ∧
    (∀ e, Sender_fillIcmpHeader E self pckt type code = Except.error e →
      e = Stop.undefinedIcmpType self type) := by
  have hs : supportedIcmpType type ↔
      (type = 3 ∨ type = 4 ∨ type = 11 ∨ type = 5 ∨ type = 0 ∨ type = 8 ∨ type = 15 ∨
        type = 16) := by
    unfold supportedIcmpType errorIcmpType queryIcmpType
    simp only [ICMP_ECHO_REPLY_TYPE, ICMP_ECHO_TYPE, ICMP_INFORMATION_REQUEST_TYPE,
      ICMP_INFORMATION_REPLY_TYPE, ICMP_DESTINATION_UNREACHABLE_TYPE, ICMP_SOURCE_QUENCH_TYPE,
      ICMP_TIME_EXCEEEDED_TYPE, ICMP_REDIRECT_TYPE]
    omega
  rw [← hs]
  by_cases h : supportedIcmpType type
  · obtain ⟨self2, pckt2, hok⟩ := Sender_fillIcmpHeader_supported_ok E self pckt type code h
    refine ⟨⟨?_, fun hn => absurd h hn⟩, ⟨fun _ => h, fun _ => ⟨self2, pckt2, hok⟩⟩, ?_⟩
    · rintro ⟨e, he⟩
      rw [hok] at he
      cases he
    · intro e he
      rw [hok] at he
      cases he
  · have herr := Sender_fillIcmpHeader_other_type E self pckt type code h
    refine ⟨⟨fun _ => h, fun _ => ⟨_, herr⟩⟩, ⟨?_, fun hp => absurd hp h⟩, ?_⟩
    · rintro ⟨self2, pckt2, hok⟩
      rw [herr] at hok
      cases hok
    · intro e he
      rw [herr] at he
      cases he
      rfl

/-- C10: `Sender_fillIcmpHeader` gives the header the next-hop-MTU shape,
carrying the sender's MTU (after `Sender_setMtu`, the value given to it),
exactly when the type is Destination Unreachable (3) and the code is
Fragmentation Needed (4); on every other input with type 3, 4 or 11 it gives
the generic zero-padded shape, and on Redirect (5) the gateway-address shape
carrying the sender's gateway. -/
theorem Sender_fillIcmpHeader_shape (E : Codec) (self : Sender) (pckt : IcmpPacket)
    (type code : Nat) (mtu : Int) :
    (type = 3 ∧ code = 4 →
      Sender_fillIcmpHeader E self pckt type code =
          Except.ok (self, IcmpPacket_fillHeader_v4 pckt 0 self._mtu) ∧
        (IcmpPacket_fillHeader_v4 pckt 0 self._mtu)._icmphdr._rest = IcmpRest.mtu self._mtu ∧
        ∃ pckt2, Sender_fillIcmpHeader E (Sender_setMtu self mtu) pckt type code =
            Except.ok (Sender_setMtu self mtu, pckt2) ∧
          pckt2._icmphdr._rest = IcmpRest.mtu mtu) ∧
    ((type = 3 ∨ type = 4 ∨ type = 11) ∧ ¬ (type = 3 ∧ code = 4) →
      Sender_fillIcmpHeader E self pckt type code =
          Except.ok (self, IcmpPacket_fillHeader_v1 pckt 0) ∧
        (IcmpPacket_fillHeader_v1 pckt 0)._icmphdr._rest = IcmpRest.unused) ∧
    (type = 5 →
      Sender_fillIcmpHeader E self pckt type code =
          Except.ok (self, IcmpPacket_fillHeader_v2 pckt 0 (E.inet_network self._gateway)) ∧
        (IcmpPacket_fillHeader_v2 pckt 0 (E.inet_network self._gateway))._icmphdr._rest =
          IcmpRest.redirect (E.inet_network self._gateway)) ∧
    ((∃ self2 pckt2 m, Sender_fillIcmpHeader E self pckt type code = Except.ok (self2, pckt2) ∧
        pckt2._icmphdr._rest = IcmpRest.mtu m) ↔ (type = 3 ∧ code = 4)) := by
  have herr : ∀ (s : Sender), type = 3 ∨ type = 4 ∨ type = 11 →
      Sender_fillIcmpHeader E s pckt type code =
        if type = 3 ∧ code = 4 then Except.ok (s, IcmpPacket_fillHeader_v4 pckt 0 s._mtu)
        else Except.ok (s, IcmpPacket_fillHeader_v1 pckt 0) := by
    intro s h
    exact Sender_fillIcmpHeader_error_type E s pckt type code h
  refine ⟨?_, ?_, ?_, ?_⟩
  · intro h
    have h3 : type = 3 ∨ type = 4 ∨ type = 11 := Or.inl h.1
    refine ⟨?_, rfl, ⟨IcmpPacket_fillHeader_v4 pckt 0 mtu, ?_, rfl⟩⟩
    · rw [herr self h3, if_pos h]
    · rw [herr _ h3, if_pos h]
      rfl
  · intro h
    refine ⟨?_, rfl⟩
    rw [herr self h.1, if_neg h.2]
  · intro h
    subst h
    exact ⟨Sender_fillIcmpHeader_redirect_type E self pckt code, rfl⟩
  · constructor
    · rintro ⟨self2, pckt2, m, hok, hrest⟩
      by_contra hne
      by_cases he : type = 3 ∨ type = 4 ∨ type = 11
      · rw [herr self he, if_neg hne] at hok
        cases hok
        cases hrest
      · by_cases h5 : type = 5
        · subst h5
          have hred := Sender_fillIcmpHeader_redirect_type E self pckt code
          simp only [ICMP_REDIRECT_TYPE] at hred
          rw [hred] at hok
          cases hok
          cases hrest
        · by_cases hq : queryIcmpType type
          · rw [Sender_fillIcmpHeader_query_type E self pckt type code hq] at hok
            cases hok
            cases hrest
          · have hns : ¬ supportedIcmpType type := by
              rintro (h | h | h)
              · exact he h
              · exact h5 h
              · exact hq h
            rw [Sender_fillIcmpHeader_other_type E self pckt type code hns] at hok
            cases hok
    · intro h
      exact ⟨self, _, self._mtu, by rw [herr self (Or.inl h.1), if_pos h], rfl⟩

/-- The instances of C10 on `sampleSender`: Fragmentation Needed with the MTU
set to 576, Source Quench with code 4, and Redirect. -/
theorem Sender_fillIcmpHeader_shape_witness :
    (∃ pckt2,
      Sender_fillIcmpHeader rfcCodec (Sender_setMtu sampleSender 576)
          { _icmphdr := { _type := 3, _code := 4, _checksum := 0, _rest := IcmpRest.unused },
            _payload := pingBytes } 3 4 =
        Except.ok (Sender_setMtu sampleSender 576, pckt2) ∧
      pckt2._icmphdr._rest = IcmpRest.mtu 576) ∧
    (IcmpPacket_fillHeader_v1
        { _icmphdr := { _type := 4, _code := 4, _checksum := 0, _rest := IcmpRest.unused },
          _payload := pingBytes } 0)._icmphdr._rest = IcmpRest.unused ∧
    (IcmpPacket_fillHeader_v2
        { _icmphdr := { _type := 5, _code := 1, _checksum := 0, _rest := IcmpRest.unused },
          _payload := pingBytes } 0 (rfcCodec.inet_network sampleSender._gateway))._icmphdr._rest =
      IcmpRest.redirect (rfcCodec.inet_network sampleSender._gateway) :=
  ⟨((Sender_fillIcmpHeader_shape rfcCodec sampleSender _ 3 4 576).1 ⟨rfl, rfl⟩).2.2,
   ((Sender_fillIcmpHeader_shape rfcCodec sampleSender _ 4 4 0).2.1
      ⟨Or.inr (Or.inl rfl), by decide⟩).2,
   ((Sender_fillIcmpHeader_shape rfcCodec sampleSender _ 5 1 0).2.2.1 rfl).2⟩

/-- On a supported type `Sender_fillIcmpHeader` returns the packet it was
given with a zero checksum and a freshly written shape; type, code and
payload are untouched. -/
theorem Sender_fillIcmpHeader_supported_form (E : Codec) (self : Sender) (pckt : IcmpPacket)
    (type code : Nat) (h : supportedIcmpType type) :
    ∃ self2 rest, Sender_fillIcmpHeader E self pckt type code =
      Except.ok (self2,
        { pckt with _icmphdr := { pckt._icmphdr with _checksum := 0, _rest := rest } }) := by
  rcases h with h | h | h
  · rw [Sender_fillIcmpHeader_error_type E self pckt type code h]
    split
    · exact ⟨_, _, rfl⟩
    · exact ⟨_, _, rfl⟩
  · subst h
    exact ⟨_, _, Sender_fillIcmpHeader_redirect_type E self pckt code⟩
  · exact ⟨_, _, Sender_fillIcmpHeader_query_type E self pckt type code h⟩

/-! ## `Sender_fillIpHeader` and the identification counter -/

/-- C4: with identification counter `i`, each single call of
`Sender_fillIpHeader`, `Sender_updateIcmpPacket` or `Sender_updateUdpPacket`
writes `i` into the IP identification field of the packet and leaves the
counter at `(i + 1) mod 2^16`; from 65535 the counter goes to 0. -/
theorem identification_advances_once (E : Codec) (self : Sender) (pckt : IpPacket)
    (iphdr : IpHeader) (icmp : IcmpPacket) (udp : UdpPacket) :
    ((Sender_fillIpHeader E self pckt).2._iphdr._id = self._lastid ∧
      (Sender_fillIpHeader E self pckt).1._lastid = (self._lastid + 1) % 2 ^ 16) ∧
    (∃ self2 pckt2,
      Sender_updateIcmpPacket E self { _iphdr := iphdr, _payload := IpPayload._icmp icmp } =
        Except.ok (self2, pckt2) ∧
      pckt2._iphdr._id = self._lastid ∧ self2._lastid = (self._lastid + 1) % 2 ^ 16) ∧
    (∃ self2 pckt2,
      Sender_updateUdpPacket E self { _iphdr := iphdr, _payload := IpPayload._udp udp } =
        Except.ok (self2, pckt2) ∧
      pckt2._iphdr._id = self._lastid ∧ self2._lastid = (self._lastid + 1) % 2 ^ 16) ∧
    (self._lastid = 65535 →
      (Sender_fillIpHeader E self pckt).1._lastid = 0 ∧
      (∃ self2 pckt2,
        Sender_updateIcmpPacket E self { _iphdr := iphdr, _payload := IpPayload._icmp icmp } =
          Except.ok (self2, pckt2) ∧ self2._lastid = 0) ∧
      (∃ self2 pckt2,
        Sender_updateUdpPacket E self { _iphdr := iphdr, _payload := IpPayload._udp udp } =
          Except.ok (self2, pckt2) ∧ self2._lastid = 0)) := by
  have hicmp : ∃ self2 pckt2,
      Sender_updateIcmpPacket E self { _iphdr := iphdr, _payload := IpPayload._icmp icmp } =
        Except.ok (self2, pckt2) ∧
      pckt2._iphdr._id = self._lastid ∧ self2._lastid = (self._lastid + 1) % 2 ^ 16 := by
    refine ⟨_, _, rfl, rfl, ?_⟩
    by_cases ht : icmp._icmphdr._type = ICMP_ECHO_TYPE ∨
        icmp._icmphdr._type = ICMP_INFORMATION_REQUEST_TYPE
    · simp only [if_pos ht]
    · simp only [if_neg ht]
  have hudp : ∃ self2 pckt2,
      Sender_updateUdpPacket E self { _iphdr := iphdr, _payload := IpPayload._udp udp } =
        Except.ok (self2, pckt2) ∧
      pckt2._iphdr._id = self._lastid ∧ self2._lastid = (self._lastid + 1) % 2 ^ 16 :=
    ⟨_, _, rfl, rfl, rfl⟩
  refine ⟨⟨rfl, rfl⟩, hicmp, hudp, ?_⟩
  intro h
  obtain ⟨s2, p2, e2, -, c2⟩ := hicmp
  obtain ⟨s3, p3, e3, -, c3⟩ := hudp
  refine ⟨?_, ⟨s2, p2, e2, ?_⟩, ⟨s3, p3, e3, ?_⟩⟩
  · show (self._lastid + 1) % 2 ^ 16 = 0
    rw [h]
    rfl
  · rw [c2, h]
    rfl
  · rw [c3, h]
    rfl

/-- The instance of C4 at a sender whose identification counter is 65535. -/
theorem identification_advances_once_witness :
    ({ sampleSender with _lastid := 65535 } : Sender)._lastid = 65535 ∧
    (Sender_fillIpHeader rfcCodec { sampleSender with _lastid := 65535 }
        (IpPacket_newIcmp 8 0 4)).1._lastid = 0 :=
  ⟨rfl,
   ((identification_advances_once rfcCodec { sampleSender with _lastid := 65535 }
      (IpPacket_newIcmp 8 0 4) (IpPacket_newIcmp 8 0 4)._iphdr
      { _icmphdr := { _type := 8, _code := 0, _checksum := 0, _rest := IcmpRest.echo 1 0 },
        _payload := pingBytes }
      { _hdr := { _srcport := 40000, _dstport := 53, _length := 12, _checksum := 0 },
        _payload := pingBytes }).2.2.2 rfl).1⟩

/-! ## Crafting -/

/-- C1: on every supported ICMP type, every code and every payload,
`Sender_craftIcmp` returns a packet whose ICMP checksum is the checksum of the
encoding of its own ICMP header and payload with the checksum field zero; and
on every port and payload `Sender_craftUdp` returns a packet whose UDP
checksum is the checksum of the encoding of its own UDP header and payload
with the checksum field zero, a buffer made of the UDP sub-packet alone
(source port, destination port, length, payload), with no IP pseudo-header. -/
theorem craft_checksum_roundtrip (E : Codec) (self : Sender) (type code : Nat)
    (payload : Option (List Nat)) (size : Nat) (port : Nat) (upayload : Option (List Nat))
    (usize : Nat) (h : supportedIcmpType type) :
    (∃ self2 iphdr icmp,
      Sender_craftIcmp E self type code payload size =
        Except.ok (self2, { _iphdr := iphdr, _payload := IpPayload._icmp icmp }) ∧
      icmp._icmphdr._type = type ∧ icmp._icmphdr._code = code ∧
      icmp._payload = craftedPayload payload size ∧
      icmp._icmphdr._checksum = E.computeChecksum (E.IcmpPacket_encode icmp.zeroChecksum)) ∧
    (∃ self2 iphdr udp,
      Sender_craftUdp E self port upayload usize =
        Except.ok (self2, { _iphdr := iphdr, _payload := IpPayload._udp udp }) ∧
      udp._hdr._checksum = E.computeChecksum (E.UdpPacket_encode udp.zeroChecksum) ∧
      udp.zeroChecksum =
        { _hdr := { _srcport := port, _dstport := E.ntohs self._dstaddress.sin_port,
                    _length := (UDP_HEADER_SIZE + usize) % 2 ^ 16, _checksum := 0 },
          _payload := craftedPayload upayload usize }) := by
  constructor
  · obtain ⟨self2, rest, hfill⟩ :=
      Sender_fillIcmpHeader_supported_form E
        { self with _lastid := (self._lastid + 1) % 2 ^ 16 }
        { _icmphdr := { _type := type, _code := code, _checksum := 0, _rest := IcmpRest.unused },
          _payload := List.replicate size 0 } type code h
    simp only [Sender_craftIcmp, Sender_fillIpHeader, IpPacket_fillHeader, IpPacket_newIcmp,
      hfill]
    cases payload with
    | none => exact ⟨_, _, _, rfl, rfl, rfl, rfl, rfl⟩
    | some bytes =>
      by_cases hs : size > 0
      · refine ⟨_, _, _, rfl, ?_, ?_, ?_, ?_⟩ <;>
          simp [hs, craftedPayload, IcmpPacket_fillPayload, IcmpHeader_setChecksum,
            IcmpPacket.zeroChecksum]
      · refine ⟨_, _, _, rfl, ?_, ?_, ?_, ?_⟩ <;>
          simp [hs, craftedPayload, IcmpPacket_fillPayload, IcmpHeader_setChecksum,
            IcmpPacket.zeroChecksum]
  · simp only [Sender_craftUdp, Sender_fillIpHeader, IpPacket_fillHeader, IpPacket_newUdp,
      Sender_fillUdpHeader, UdpPacket_fillHeader, UdpPacket_getPacketSize]
    cases upayload with
    | none =>
      refine ⟨_, _, _, rfl, ?_, ?_⟩ <;>
        simp [craftedPayload, UdpHeader_setChecksum, UdpPacket.zeroChecksum]
    | some bytes =>
      by_cases hs : usize > 0
      · refine ⟨_, _, _, rfl, ?_, ?_⟩ <;>
          simp [hs, craftedPayload, UdpPacket_fillPayload, UdpHeader_setChecksum,
            UdpPacket.zeroChecksum]
      · refine ⟨_, _, _, rfl, ?_, ?_⟩ <;>
          simp [hs, craftedPayload, UdpPacket_fillPayload, UdpHeader_setChecksum,
            UdpPacket.zeroChecksum]

/-- The instance of C1 at the Echo "ping" of `sampleSender`. -/
theorem craft_checksum_roundtrip_witness :
    supportedIcmpType 8 ∧
    ∃ self2 iphdr icmp,
      Sender_craftIcmp rfcCodec sampleSender 8 0 (some pingBytes) 4 =
        Except.ok (self2, { _iphdr := iphdr, _payload := IpPayload._icmp icmp }) ∧
      icmp._icmphdr._type = 8 ∧ icmp._icmphdr._code = 0 ∧
      icmp._payload = craftedPayload (some pingBytes) 4 ∧
      icmp._icmphdr._checksum =
        rfcCodec.computeChecksum (rfcCodec.IcmpPacket_encode icmp.zeroChecksum) :=
  ⟨by decide,
   (craft_checksum_roundtrip rfcCodec sampleSender 8 0 (some pingBytes) 4 40000
      (some pingBytes) 4 (by decide)).1⟩

/-! ## Update path -/

/-- What `Sender_updateUdpPacket` does to a packet that holds a UDP
sub-packet: the checksum written is the checksum of the encoding of the
sub-packet as it was received, with the checksum field it then held. -/
theorem Sender_updateUdpPacket_udp (E : Codec) (self : Sender) (iphdr : IpHeader)
    (udp : UdpPacket) :
    Sender_updateUdpPacket E self { _iphdr := iphdr, _payload := IpPayload._udp udp } =
      Except.ok
        ({ self with _lastid := (self._lastid + 1) % 2 ^ 16 },
         { _iphdr := IpHeader_setIdentfication iphdr self._lastid,
           _payload := IpPayload._udp
             { _hdr :=
                 UdpHeader_setChecksum udp._hdr (E.computeChecksum (E.UdpPacket_encode udp)),
               _payload := udp._payload } }) :=
  rfl

/-- What `Sender_updateIcmpPacket` does to a packet whose ICMP type is neither
Echo nor Information Request: only the IP identification and the checksum are
written, and the checksum is that of the encoding of the sub-packet as it was
received, with the checksum field it then held. -/
theorem Sender_updateIcmpPacket_other (E : Codec) (self : Sender) (iphdr : IpHeader)
    (icmp : IcmpPacket)
    (h : ¬ (icmp._icmphdr._type = ICMP_ECHO_TYPE ∨
      icmp._icmphdr._type = ICMP_INFORMATION_REQUEST_TYPE)) :
    Sender_updateIcmpPacket E self { _iphdr := iphdr, _payload := IpPayload._icmp icmp } =
      Except.ok
        ({ self with _lastid := (self._lastid + 1) % 2 ^ 16 },
         { _iphdr := IpHeader_setIdentfication iphdr self._lastid,
           _payload := IpPayload._icmp
             { _icmphdr :=
                 IcmpHeader_setChecksum icmp._icmphdr
                   (E.computeChecksum (E.IcmpPacket_encode icmp)),
               _payload := icmp._payload } }) := by
  simp only [Sender_updateIcmpPacket, if_neg h]

/-- What `Sender_updateIcmpPacket` does to a packet whose ICMP type is Echo or
Information Request: identifier and sequence are written from the counters,
which advance, and the checksum is that of the encoding of the sub-packet
after these writes, with the checksum field it held on entry. -/
theorem Sender_updateIcmpPacket_request (E : Codec) (self : Sender) (iphdr : IpHeader)
    (icmp : IcmpPacket)
    (h : icmp._icmphdr._type = ICMP_ECHO_TYPE ∨
      icmp._icmphdr._type = ICMP_INFORMATION_REQUEST_TYPE) :
    Sender_updateIcmpPacket E self { _iphdr := iphdr, _payload := IpPayload._icmp icmp } =
      Except.ok
        ({ self with _lastid := (self._lastid + 1) % 2 ^ 16,
                     _lsticmpid := (self._lsticmpid + 1) % 2 ^ 16,
                     _icmpsn := (self._icmpsn + 1) % 2 ^ 16 },
         { _iphdr := IpHeader_setIdentfication iphdr self._lastid,
           _payload := IpPayload._icmp
             { _icmphdr :=
                 IcmpHeader_setChecksum
                   (IcmpHeader_setSequenceNumber
                     (IcmpHeader_setIdentifier icmp._icmphdr self._lsticmpid) self._icmpsn)
                   (E.computeChecksum (E.IcmpPacket_encode
                     { _icmphdr :=
                         IcmpHeader_setSequenceNumber
                           (IcmpHeader_setIdentifier icmp._icmphdr self._lsticmpid)
                           self._icmpsn,
                       _payload := icmp._payload })),
               _payload := icmp._payload } }) := by
  simp only [Sender_updateIcmpPacket, if_pos h]

/-- After both setters the header holds the identifier+sequence shape with the
two values written, whatever it held before. -/
theorem IcmpHeader_setIdentifier_setSequenceNumber (hdr : IcmpHeader) (id seqnum : Nat) :
    (IcmpHeader_setSequenceNumber (IcmpHeader_setIdentifier hdr id) seqnum)._rest =
      IcmpRest.echo id seqnum := by
  unfold IcmpHeader_setIdentifier
  cases hr : hdr._rest <;> simp [IcmpHeader_setSequenceNumber]

/-- C2: on the Echo "ping" packet crafted by `sampleSender`, one
`Sender_updateIcmpPacket` call (standard checksum and wire layout) stores
65533 in the ICMP checksum field, while the checksum of the updated header
(identifier 2, sequence 1) and unchanged payload with the checksum field
taken as zero is 6444: the stored value is not the re-derived checksum. -/
theorem Sender_updateIcmpPacket_checksum_stale :
    ∃ self1 pckt1 self2 iphdr2 icmp2,
      Sender_craftIcmp rfcCodec sampleSender 8 0 (some pingBytes) 4 =
        Except.ok (self1, pckt1) ∧
      Sender_updateIcmpPacket rfcCodec self1 pckt1 =
        Except.ok (self2, { _iphdr := iphdr2, _payload := IpPayload._icmp icmp2 }) ∧
      icmp2._icmphdr._rest = IcmpRest.echo 2 1 ∧
      icmp2._payload = pingBytes ∧
      icmp2._icmphdr._checksum = 65533 ∧
      rfcCodec.computeChecksum (rfcCodec.IcmpPacket_encode icmp2.zeroChecksum) = 6444 ∧
      icmp2._icmphdr._checksum ≠
        rfcCodec.computeChecksum (rfcCodec.IcmpPacket_encode icmp2.zeroChecksum) := by
  refine ⟨_, _, _, _, _, rfl, rfl, ?_, ?_, ?_, ?_, ?_⟩ <;> decide

/-- C3: on the UDP "ping" packet crafted by `sampleUdpSender` from port 40000,
whose stored checksum is 33965, one `Sender_updateUdpPacket` call (standard
checksum and wire layout) stores 0 in the UDP checksum field, while the
checksum of the unchanged header and payload with the checksum field taken as
zero is still 33965: the stored value is neither the re-derived checksum nor
the one `Sender_craftUdp` stored. -/
theorem Sender_updateUdpPacket_checksum_stale :
    ∃ self1 iphdr1 udp1 self2 iphdr2 udp2,
      Sender_craftUdp rfcCodec sampleUdpSender 40000 (some pingBytes) 4 =
        Except.ok (self1, { _iphdr := iphdr1, _payload := IpPayload._udp udp1 }) ∧
      Sender_updateUdpPacket rfcCodec self1
          { _iphdr := iphdr1, _payload := IpPayload._udp udp1 } =
        Except.ok (self2, { _iphdr := iphdr2, _payload := IpPayload._udp udp2 }) ∧
      udp1._hdr._checksum = 33965 ∧
      udp2._payload = udp1._payload ∧
      udp2.zeroChecksum = udp1.zeroChecksum ∧
      udp2._hdr._checksum = 0 ∧
      rfcCodec.computeChecksum (rfcCodec.UdpPacket_encode udp2.zeroChecksum) = 33965 ∧
      udp2._hdr._checksum ≠
        rfcCodec.computeChecksum (rfcCodec.UdpPacket_encode udp2.zeroChecksum) := by
  refine ⟨_, _, _, _, _, _, rfl, rfl, ?_, ?_, ?_, ?_, ?_, ?_⟩ <;> decide

/-- C6, as stated, fails on Echo Reply: on the Echo Reply packet crafted by
`sampleSender`, a query-style type, `Sender_updateIcmpPacket` leaves the ICMP
identifier and sequence counters where they were (2 and 1) and the packet
keeps identifier 1 and sequence 0. -/
theorem Sender_updateIcmpPacket_echoReply_untouched :
    queryIcmpType 0 ∧
    ∃ self1 pckt1 self2 iphdr2 icmp2,
      Sender_craftIcmp rfcCodec sampleSender 0 0 (some pingBytes) 4 =
        Except.ok (self1, pckt1) ∧
      Sender_updateIcmpPacket rfcCodec self1 pckt1 =
        Except.ok (self2, { _iphdr := iphdr2, _payload := IpPayload._icmp icmp2 }) ∧
      icmp2._icmphdr._type = 0 ∧
      self1._lsticmpid = 2 ∧ self1._icmpsn = 1 ∧
      self2._lsticmpid = 2 ∧ self2._icmpsn = 1 ∧
      self2._lsticmpid ≠ (self1._lsticmpid + 1) % 2 ^ 16 ∧
      self2._icmpsn ≠ (self1._icmpsn + 1) % 2 ^ 16 ∧
      icmp2._icmphdr._rest = IcmpRest.echo 1 0 := by
  refine ⟨by decide, _, _, _, _, _, rfl, rfl, ?_, ?_, ?_, ?_, ?_, ?_, ?_, ?_⟩ <;> decide

/-- C6, amended: for every packet whose ICMP type is Echo (8) or Information
Request (15), `Sender_updateIcmpPacket` advances the ICMP identifier and
sequence counters by one (mod 2^16) and writes the identifier and sequence it
consumed into the ICMP header of the packet; for every packet of any other
type, Echo Reply (0) and Information Reply (16) included, it leaves both
counters and the identifier/sequence-position fields untouched. -/
theorem Sender_updateIcmpPacket_counters (E : Codec) (self : Sender) (iphdr : IpHeader)
    (icmp : IcmpPacket) :
    (icmp._icmphdr._type = 8 ∨ icmp._icmphdr._type = 15 →
      ∃ self2 iphdr2 icmp2,
        Sender_updateIcmpPacket E self { _iphdr := iphdr, _payload := IpPayload._icmp icmp } =
          Except.ok (self2, { _iphdr := iphdr2, _payload := IpPayload._icmp icmp2 }) ∧
        self2._lsticmpid = (self._lsticmpid + 1) % 2 ^ 16 ∧
        self2._icmpsn = (self._icmpsn + 1) % 2 ^ 16 ∧
        icmp2._icmphdr._rest = IcmpRest.echo self._lsticmpid self._icmpsn) ∧
    (¬ (icmp._icmphdr._type = 8 ∨ icmp._icmphdr._type = 15) →
      ∃ self2 iphdr2 icmp2,
        Sender_updateIcmpPacket E self { _iphdr := iphdr, _payload := IpPayload._icmp icmp } =
          Except.ok (self2, { _iphdr := iphdr2, _payload := IpPayload._icmp icmp2 }) ∧
        self2._lsticmpid = self._lsticmpid ∧
        self2._icmpsn = self._icmpsn ∧
        icmp2._icmphdr._rest = icmp._icmphdr._rest) := by
  constructor
  · intro h
    exact ⟨_, _, _, Sender_updateIcmpPacket_request E self iphdr icmp h, rfl, rfl,
      IcmpHeader_setIdentifier_setSequenceNumber icmp._icmphdr self._lsticmpid self._icmpsn⟩
  · intro h
    exact ⟨_, _, _, Sender_updateIcmpPacket_other E self iphdr icmp h, rfl, rfl, rfl⟩

/-- The instances of the amended C6 at an Echo packet and at an Information
Reply packet. -/
theorem Sender_updateIcmpPacket_counters_witness :
    (∃ self2 iphdr2 icmp2,
      Sender_updateIcmpPacket rfcCodec sampleSender
          { _iphdr := IpHeader_blank 32,
            _payload := IpPayload._icmp
              { _icmphdr := { _type := 8, _code := 0, _checksum := 0,
                              _rest := IcmpRest.echo 7 9 },
                _payload := pingBytes } } =
        Except.ok (self2, { _iphdr := iphdr2, _payload := IpPayload._icmp icmp2 }) ∧
      self2._lsticmpid = (sampleSender._lsticmpid + 1) % 2 ^ 16 ∧
      self2._icmpsn = (sampleSender._icmpsn + 1) % 2 ^ 16 ∧
      icmp2._icmphdr._rest = IcmpRest.echo sampleSender._lsticmpid sampleSender._icmpsn) ∧
    (∃ self2 iphdr2 icmp2,
      Sender_updateIcmpPacket rfcCodec sampleSender
          { _iphdr := IpHeader_blank 32,
            _payload := IpPayload._icmp
              { _icmphdr := { _type := 16, _code := 0, _checksum := 0,
                              _rest := IcmpRest.echo 7 9 },
                _payload := pingBytes } } =
        Except.ok (self2, { _iphdr := iphdr2, _payload := IpPayload._icmp icmp2 }) ∧
      self2._lsticmpid = sampleSender._lsticmpid ∧
      self2._icmpsn = sampleSender._icmpsn ∧
      icmp2._icmphdr._rest = IcmpRest.echo 7 9) :=
  ⟨(Sender_updateIcmpPacket_counters rfcCodec sampleSender (IpHeader_blank 32)
      { _icmphdr := { _type := 8, _code := 0, _checksum := 0, _rest := IcmpRest.echo 7 9 },
        _payload := pingBytes }).1 (Or.inl rfl),
   (Sender_updateIcmpPacket_counters rfcCodec sampleSender (IpHeader_blank 32)
      { _icmphdr := { _type := 16, _code := 0, _checksum := 0, _rest := IcmpRest.echo 7 9 },
        _payload := pingBytes }).2 (by decide)⟩

/-! ## `Sender_new` -/

/-- A successful `Sender_new` is the record of its initial values: there is a
protocol entry and a descriptor other than `-1` behind it. -/
theorem Sender_new_ok (E : Codec) (H : Host) (interface dstaddr gateway : String)
    (dstport : Nat) (proto : String) (verbose : Bool) (s : Sender)
    (hnew : Sender_new E H interface dstaddr gateway dstport proto verbose = Except.ok s) :
    ∃ pe, H.getprotobyname proto = some pe ∧ H.socket pe.p_proto ≠ -1 ∧
      s =
        { _srcaddress := H.getInterfaceIp interface,
          _dstaddress := { sin_port := E.htons dstport, sin_addr := H.inet_pton dstaddr },
          _gateway := gateway,
          _socket := H.socket pe.p_proto,
          _msgcnt := 0,
          _proto := pe,
          _lastid := H.getpid % 2 ^ 16,
          _icmpsn := 0,
          _lsticmpid := 1,
          _verbose := verbose,
          _timer := none,
          _mtu := H.getInterfaceMTU interface,
          _synch := false,
          _sent := false,
          _params := { _xf := X_FLAG_NOT_SET, _df := D_FLAG_SET, _mf := M_FLAG_NOT_SET } } := by
  unfold Sender_new at hnew
  cases hp : H.getprotobyname proto with
  | none =>
    rw [hp] at hnew
    cases hnew
  | some pe =>
    rw [hp] at hnew
    by_cases hs : H.socket pe.p_proto = -1
    · simp only [hs, if_true] at hnew
      cases hnew
    · simp only [hs, if_false] at hnew
      cases hnew
      exact ⟨pe, rfl, hs, rfl⟩

/-- The byte swap of a 16-bit value is its own inverse. -/
theorem swap16_swap16 (x : Nat) (h : x < 2 ^ 16) : swap16 (swap16 x) = x := by
  unfold swap16
  have h0 : x < 65536 := h
  have h1 : x / 256 < 256 := by omega
  have h2 : x / 256 % 256 = x / 256 := Nat.mod_eq_of_lt h1
  rw [h2]
  have h3 : (x % 256 * 256 + x / 256) % 256 = x / 256 := by omega
  have h4 : (x % 256 * 256 + x / 256) / 256 = x % 256 := by omega
  rw [h3, h4]
  omega

/-- C17: the sender a successful `Sender_new` returns has message counter 0,
identification counter equal to the process id modulo 2^16, ICMP sequence
counter 0, ICMP identifier counter 1, don't-fragment set, more-fragments and
reserved bit unset, no timer attached, and (the byte-order conversions being
inverse on 16-bit values) a destination port that, read back in host byte
order as `Sender_fillUdpHeader` reads it, is the port given at construction. -/
theorem Sender_new_initial_state (E : Codec) (H : Host) (interface dstaddr gateway : String)
    (dstport : Nat) (proto : String) (verbose : Bool) (s : Sender) (pckt : UdpPacket)
    (srcport : Nat)
    (hnew : Sender_new E H interface dstaddr gateway dstport proto verbose = Except.ok s)
    (hport : dstport < 2 ^ 16)
    (hbyte : ∀ x, x < 2 ^ 16 → E.ntohs (E.htons x) = x) :
    s._msgcnt = 0 ∧ s._lastid = H.getpid % 2 ^ 16 ∧ s._icmpsn = 0 ∧ s._lsticmpid = 1 ∧
    s._params._df = 1 ∧ s._params._mf = 0 ∧ s._params._xf = 0 ∧ s._timer = none ∧
    E.ntohs s._dstaddress.sin_port = dstport ∧
    (Sender_fillUdpHeader E s pckt srcport)._hdr._dstport = dstport := by
  obtain ⟨pe, -, -, hs⟩ := Sender_new_ok E H interface dstaddr gateway dstport proto verbose s hnew
  subst hs
  refine ⟨rfl, rfl, rfl, rfl, rfl, rfl, rfl, rfl, hbyte dstport hport, ?_⟩
  show E.ntohs (E.htons dstport) = dstport
  exact hbyte dstport hport

/-- The instance of C17 at the construction on `sampleHost` for protocol
`udp` and destination port 53. -/
theorem Sender_new_initial_state_witness :
    Sender_new rfcCodec sampleHost ("eth0") ("203.0.113.5") ("192.0.2.254") 53 ("udp") false =
      Except.ok sampleUdpSender ∧
    sampleUdpSender._msgcnt = 0 ∧ sampleUdpSender._lastid = sampleHost.getpid % 2 ^ 16 ∧
    sampleUdpSender._icmpsn = 0 ∧ sampleUdpSender._lsticmpid = 1 ∧
    sampleUdpSender._params._df = 1 ∧ sampleUdpSender._params._mf = 0 ∧
    sampleUdpSender._params._xf = 0 ∧ sampleUdpSender._timer = none ∧
    rfcCodec.ntohs sampleUdpSender._dstaddress.sin_port = 53 ∧
    (Sender_fillUdpHeader rfcCodec sampleUdpSender
        { _hdr := { _srcport := 0, _dstport := 0, _length := 0, _checksum := 0 },
          _payload := pingBytes } 40000)._hdr._dstport = 53 :=
  ⟨rfl,
   Sender_new_initial_state rfcCodec sampleHost ("eth0") ("203.0.113.5") ("192.0.2.254") 53
     ("udp") false sampleUdpSender
     { _hdr := { _srcport := 0, _dstport := 0, _length := 0, _checksum := 0 },
       _payload := pingBytes } 40000 rfl (by decide) swap16_swap16⟩

/-! ## The first Echo and its updates -/

/-- What `Sender_craftIcmp` returns on a query-style type: the three counters
advance, the packet carries the identification, identifier and sequence they
held, and the checksum is that of the sub-packet encoded with a zero checksum
field. -/
theorem Sender_craftIcmp_query (E : Codec) (self : Sender) (type code : Nat)
    (payload : Option (List Nat)) (size : Nat) (h : queryIcmpType type) :
    Sender_craftIcmp E self type code payload size =
      Except.ok
        ({ self with _lastid := (self._lastid + 1) % 2 ^ 16,
                     _lsticmpid := (self._lsticmpid + 1) % 2 ^ 16,
                     _icmpsn := (self._icmpsn + 1) % 2 ^ 16 },
         { _iphdr := (Sender_fillIpHeader E self (IpPacket_newIcmp type code size)).2._iphdr,
           _payload := IpPayload._icmp
             { _icmphdr :=
                 { _type := type, _code := code,
                   _checksum := E.computeChecksum (E.IcmpPacket_encode
                     { _icmphdr := { _type := type, _code := code, _checksum := 0,
                                     _rest := IcmpRest.echo self._lsticmpid self._icmpsn },
                       _payload := craftedPayload payload size }),
                   _rest := IcmpRest.echo self._lsticmpid self._icmpsn },
               _payload := craftedPayload payload size } }) := by
  have hfill := Sender_fillIcmpHeader_query_type E
    { self with _lastid := (self._lastid + 1) % 2 ^ 16 }
    { _icmphdr := { _type := type, _code := code, _checksum := 0, _rest := IcmpRest.unused },
      _payload := List.replicate size 0 } type code h
  simp only [Sender_craftIcmp, Sender_fillIpHeader, IpPacket_fillHeader, IpPacket_newIcmp,
    hfill]
  cases payload with
  | none => rfl
  | some bytes =>
    by_cases hs : size > 0
    · simp [hs, craftedPayload, IcmpPacket_fillPayload, IcmpHeader_setChecksum,
        IcmpPacket_fillHeader_v3]
    · simp [hs, craftedPayload, IcmpPacket_fillPayload, IcmpHeader_setChecksum,
        IcmpPacket_fillHeader_v3]

/-- After `k + 1` consecutive updates of an Echo packet by a sender whose
counters are 16-bit values, the packet carries the values the counters held
`k` steps after the first update. -/
theorem Sender_updateIcmpPacket_times_echo (E : Codec) (k : Nat) :
    ∀ (self : Sender) (iphdr : IpHeader) (icmp : IcmpPacket),
      icmp._icmphdr._type = ICMP_ECHO_TYPE →
      self._lastid < 2 ^ 16 → self._lsticmpid < 2 ^ 16 → self._icmpsn < 2 ^ 16 →
      ∃ self2 iphdr2 icmp2,
        Sender_updateIcmpPacket_times E (k + 1) self
            { _iphdr := iphdr, _payload := IpPayload._icmp icmp } =
          Except.ok (self2, { _iphdr := iphdr2, _payload := IpPayload._icmp icmp2 }) ∧
        iphdr2._id = (self._lastid + k) % 2 ^ 16 ∧
        icmp2._icmphdr._rest =
          IcmpRest.echo ((self._lsticmpid + k) % 2 ^ 16) ((self._icmpsn + k) % 2 ^ 16) := by
  induction k with
  | zero =>
    intro self iphdr icmp ht hL hA hS
    have hreq := Sender_updateIcmpPacket_request E self iphdr icmp (Or.inl ht)
    simp only [Sender_updateIcmpPacket_times, hreq]
    refine ⟨_, _, _, rfl, ?_, ?_⟩
    · show self._lastid = (self._lastid + 0) % 2 ^ 16
      rw [Nat.add_zero, Nat.mod_eq_of_lt hL]
    · show (IcmpHeader_setSequenceNumber
          (IcmpHeader_setIdentifier icmp._icmphdr self._lsticmpid) self._icmpsn)._rest = _
      rw [IcmpHeader_setIdentifier_setSequenceNumber, Nat.add_zero, Nat.add_zero,
        Nat.mod_eq_of_lt hA, Nat.mod_eq_of_lt hS]
  | succ k ih =>
    intro self iphdr icmp ht hL hA hS
    have hreq := Sender_updateIcmpPacket_request E self iphdr icmp (Or.inl ht)
    have hM : (2 : Nat) ^ 16 = 65536 := by norm_num
    obtain ⟨self2, iphdr2, icmp2, hok, hid, hrest⟩ :=
      ih { self with _lastid := (self._lastid + 1) % 2 ^ 16,
                     _lsticmpid := (self._lsticmpid + 1) % 2 ^ 16,
                     _icmpsn := (self._icmpsn + 1) % 2 ^ 16 }
        (IpHeader_setIdentfication iphdr self._lastid)
        { _icmphdr :=
            IcmpHeader_setChecksum
              (IcmpHeader_setSequenceNumber
                (IcmpHeader_setIdentifier icmp._icmphdr self._lsticmpid) self._icmpsn)
              (E.computeChecksum (E.IcmpPacket_encode
                { _icmphdr :=
                    IcmpHeader_setSequenceNumber
                      (IcmpHeader_setIdentifier icmp._icmphdr self._lsticmpid) self._icmpsn,
                  _payload := icmp._payload })),
          _payload := icmp._payload }
        (by
          show (IcmpHeader_setSequenceNumber
            (IcmpHeader_setIdentifier icmp._icmphdr self._lsticmpid) self._icmpsn)._type = _
          unfold IcmpHeader_setIdentifier
          cases hr : icmp._icmphdr._rest <;> simp [IcmpHeader_setSequenceNumber, ht])
        (Nat.mod_lt _ (by norm_num)) (Nat.mod_lt _ (by norm_num)) (Nat.mod_lt _ (by norm_num))
    refine ⟨self2, iphdr2, icmp2, ?_, ?_, ?_⟩
    · rw [Sender_updateIcmpPacket_times, hreq]
      exact hok
    · rw [hid]
      simp only [hM]
      omega
    · rw [hrest]
      simp only [hM]
      congr 1 <;> omega

/-- C11: on the sender a successful `Sender_new` returns, the first
`Sender_craftIcmp(Echo 8, code 0, p, n)` with `n > 0` returns a packet whose
ICMP header has type 8, code 0, identifier 1 and sequence 0, whose ICMP
payload is the first `n` bytes of `p`, and whose IP identification is the
process id modulo 2^16; with the standard checksum and wire layout and
`p = "ping"`, `n = 4`, the stored checksum is 6446, which is not zero. -/
theorem first_echo_of_fresh_sender (E : Codec) (H : Host)
    (interface dstaddr gateway : String) (dstport : Nat) (proto : String) (verbose : Bool)
    (s : Sender) (p : List Nat) (n : Nat)
    (hnew : Sender_new E H interface dstaddr gateway dstport proto verbose = Except.ok s)
    (hn : 0 < n) :
    ∃ s2 iphdr icmp,
      Sender_craftIcmp E s 8 0 (some p) n =
        Except.ok (s2, { _iphdr := iphdr, _payload := IpPayload._icmp icmp }) ∧
      icmp._icmphdr._type = 8 ∧ icmp._icmphdr._code = 0 ∧
      icmp._icmphdr._rest = IcmpRest.echo 1 0 ∧
      icmp._payload = p.take n ∧
      iphdr._id = H.getpid % 2 ^ 16 ∧
      (E.computeChecksum = computeChecksum → E.IcmpPacket_encode = IcmpPacket_encode →
        p = pingBytes → n = 4 →
        icmp._icmphdr._checksum = 6446 ∧ icmp._icmphdr._checksum ≠ 0) := by
  obtain ⟨pe, -, -, hs⟩ := Sender_new_ok E H interface dstaddr gateway dstport proto verbose s hnew
  have hq : queryIcmpType 8 := by decide
  rw [Sender_craftIcmp_query E s 8 0 (some p) n hq]
  have hpay : craftedPayload (some p) n = p.take n := by
    simp [craftedPayload, hn]
  subst hs
  refine ⟨_, _, _, rfl, rfl, rfl, rfl, hpay, rfl, ?_⟩
  intro hcs henc hp h4
  subst hp h4
  have hval : E.computeChecksum (E.IcmpPacket_encode
      { _icmphdr := { _type := 8, _code := 0, _checksum := 0, _rest := IcmpRest.echo 1 0 },
        _payload := craftedPayload (some pingBytes) 4 }) = 6446 := by
    rw [hcs, henc]
    decide
  refine ⟨hval, ?_⟩
  intro h0
  have h1 : (6446 : Nat) = 0 := hval.symm.trans h0
  omega

/-- The instance of C11 at the construction on `sampleHost` and the payload
"ping": identifier 1, sequence 0, identification 4242, checksum 6446. -/
theorem first_echo_of_fresh_sender_witness :
    ∃ s2 iphdr icmp,
      Sender_craftIcmp rfcCodec sampleSender 8 0 (some pingBytes) 4 =
        Except.ok (s2, { _iphdr := iphdr, _payload := IpPayload._icmp icmp }) ∧
      icmp._icmphdr._type = 8 ∧ icmp._icmphdr._code = 0 ∧
      icmp._icmphdr._rest = IcmpRest.echo 1 0 ∧
      icmp._payload = pingBytes.take 4 ∧
      iphdr._id = sampleHost.getpid % 2 ^ 16 ∧
      (rfcCodec.computeChecksum = computeChecksum →
        rfcCodec.IcmpPacket_encode = IcmpPacket_encode →
        pingBytes = pingBytes → 4 = 4 →
        icmp._icmphdr._checksum = 6446 ∧ icmp._icmphdr._checksum ≠ 0) :=
  first_echo_of_fresh_sender rfcCodec sampleHost ("eth0") ("203.0.113.5") ("192.0.2.254") 0
    ("icmp") false sampleSender pingBytes 4 rfl (by decide)

/-- C12: for the Echo packet `Sender_craftIcmp` returns, carrying identifier
`a`, sequence `s` and IP identification `i` (16-bit values), after `k`
consecutive `Sender_updateIcmpPacket` calls the packet carries identifier
`(a+k) mod 2^16`, sequence `(s+k) mod 2^16` and identification
`(i+k) mod 2^16`; on a fresh sender the sequence is 1 after one update and,
after two, the identifier is 3, the sequence 2 and the identification two
past the one the packet was crafted with. -/
theorem Sender_updateIcmpPacket_times_progression (E : Codec) (self : Sender) (code : Nat)
    (payload : Option (List Nat)) (size : Nat) (k : Nat)
    (hL : self._lastid < 2 ^ 16) (hA : self._lsticmpid < 2 ^ 16) (hS : self._icmpsn < 2 ^ 16) :
    ∃ self1 iphdr icmp,
      Sender_craftIcmp E self 8 code payload size =
        Except.ok (self1, { _iphdr := iphdr, _payload := IpPayload._icmp icmp }) ∧
      icmp._icmphdr._rest = IcmpRest.echo self._lsticmpid self._icmpsn ∧
      iphdr._id = self._lastid ∧
      (∃ self2 iphdr2 icmp2,
        Sender_updateIcmpPacket_times E k self1
            { _iphdr := iphdr, _payload := IpPayload._icmp icmp } =
          Except.ok (self2, { _iphdr := iphdr2, _payload := IpPayload._icmp icmp2 }) ∧
        icmp2._icmphdr._rest =
          IcmpRest.echo ((self._lsticmpid + k) % 2 ^ 16) ((self._icmpsn + k) % 2 ^ 16) ∧
        iphdr2._id = (self._lastid + k) % 2 ^ 16) ∧
      (∀ (H : Host) (interface dstaddr gateway : String) (dstport : Nat) (proto : String)
          (verbose : Bool),
        Sender_new E H interface dstaddr gateway dstport proto verbose = Except.ok self →
        icmp._icmphdr._rest = IcmpRest.echo 1 0 ∧
        (∃ self2 iphdr2 icmp2,
          Sender_updateIcmpPacket_times E 1 self1
              { _iphdr := iphdr, _payload := IpPayload._icmp icmp } =
            Except.ok (self2, { _iphdr := iphdr2, _payload := IpPayload._icmp icmp2 }) ∧
          icmp2._icmphdr._rest = IcmpRest.echo 2 1) ∧
        (∃ self2 iphdr2 icmp2,
          Sender_updateIcmpPacket_times E 2 self1
              { _iphdr := iphdr, _payload := IpPayload._icmp icmp } =
            Except.ok (self2, { _iphdr := iphdr2, _payload := IpPayload._icmp icmp2 }) ∧
          icmp2._icmphdr._rest = IcmpRest.echo 3 2 ∧
          iphdr2._id = (iphdr._id + 2) % 2 ^ 16)) := by
  have hq : queryIcmpType 8 := by decide
  have hM : (2 : Nat) ^ 16 = 65536 := by norm_num
  have hcraft := Sender_craftIcmp_query E self 8 code payload size hq
  have main : ∀ j, ∃ self2 iphdr2 icmp2,
      Sender_updateIcmpPacket_times E j
          { self with _lastid := (self._lastid + 1) % 2 ^ 16,
                      _lsticmpid := (self._lsticmpid + 1) % 2 ^ 16,
                      _icmpsn := (self._icmpsn + 1) % 2 ^ 16 }
          { _iphdr := (Sender_fillIpHeader E self (IpPacket_newIcmp 8 code size)).2._iphdr,
            _payload := IpPayload._icmp
              { _icmphdr :=
                  { _type := 8, _code := code,
                    _checksum := E.computeChecksum (E.IcmpPacket_encode
                      { _icmphdr := { _type := 8, _code := code, _checksum := 0,
                                      _rest := IcmpRest.echo self._lsticmpid self._icmpsn },
                        _payload := craftedPayload payload size }),
                    _rest := IcmpRest.echo self._lsticmpid self._icmpsn },
                _payload := craftedPayload payload size } } =
        Except.ok (self2, { _iphdr := iphdr2, _payload := IpPayload._icmp icmp2 }) ∧
      icmp2._icmphdr._rest =
        IcmpRest.echo ((self._lsticmpid + j) % 2 ^ 16) ((self._icmpsn + j) % 2 ^ 16) ∧
      iphdr2._id = (self._lastid + j) % 2 ^ 16 := by
    intro j
    cases j with
    | zero =>
      refine ⟨_, _, _, rfl, ?_, ?_⟩
      · show IcmpRest.echo self._lsticmpid self._icmpsn = _
        rw [Nat.add_zero, Nat.add_zero, Nat.mod_eq_of_lt hA, Nat.mod_eq_of_lt hS]
      · show self._lastid = _
        rw [Nat.add_zero, Nat.mod_eq_of_lt hL]
    | succ j =>
      obtain ⟨self2, iphdr2, icmp2, hok, hid, hrest⟩ :=
        Sender_updateIcmpPacket_times_echo E j
          { self with _lastid := (self._lastid + 1) % 2 ^ 16,
                      _lsticmpid := (self._lsticmpid + 1) % 2 ^ 16,
                      _icmpsn := (self._icmpsn + 1) % 2 ^ 16 }
          (Sender_fillIpHeader E self (IpPacket_newIcmp 8 code size)).2._iphdr
          { _icmphdr :=
              { _type := 8, _code := code,
                _checksum := E.computeChecksum (E.IcmpPacket_encode
                  { _icmphdr := { _type := 8, _code := code, _checksum := 0,
                                  _rest := IcmpRest.echo self._lsticmpid self._icmpsn },
                    _payload := craftedPayload payload size }),
                _rest := IcmpRest.echo self._lsticmpid self._icmpsn },
            _payload := craftedPayload payload size }
          rfl (Nat.mod_lt _ (by norm_num)) (Nat.mod_lt _ (by norm_num))
          (Nat.mod_lt _ (by norm_num))
      refine ⟨self2, iphdr2, icmp2, hok, ?_, ?_⟩
      · rw [hrest]
        simp only [hM]
        congr 1 <;> omega
      · rw [hid]
        simp only [hM]
        omega
  rw [hcraft]
  refine ⟨_, _, _, rfl, rfl, rfl, ?_, ?_⟩
  · obtain ⟨self2, iphdr2, icmp2, hok, hrest, hid⟩ := main k
    exact ⟨self2, iphdr2, icmp2, hok, hrest, hid⟩
  · intro H interface dstaddr gateway dstport proto verbose hnew
    obtain ⟨pe, -, -, hs⟩ :=
      Sender_new_ok E H interface dstaddr gateway dstport proto verbose self hnew
    have ha : self._lsticmpid = 1 := by rw [hs]
    have hsn : self._icmpsn = 0 := by rw [hs]
    refine ⟨?_, ?_, ?_⟩
    · show IcmpRest.echo self._lsticmpid self._icmpsn = _
      rw [ha, hsn]
    · obtain ⟨self2, iphdr2, icmp2, hok, hrest, -⟩ := main 1
      refine ⟨self2, iphdr2, icmp2, hok, ?_⟩
      rw [hrest, ha, hsn]
      rfl
    · obtain ⟨self2, iphdr2, icmp2, hok, hrest, hid⟩ := main 2
      refine ⟨self2, iphdr2, icmp2, hok, ?_, hid⟩
      rw [hrest, ha, hsn]
      rfl

/-- The instance of C12 at the Echo "ping" of `sampleSender` and two
updates: identifier 3, sequence 2, identification 4244. -/
theorem Sender_updateIcmpPacket_times_progression_witness :
    sampleSender._lastid < 2 ^ 16 ∧ sampleSender._lsticmpid < 2 ^ 16 ∧
    sampleSender._icmpsn < 2 ^ 16 ∧
    ∃ self1 iphdr icmp,
      Sender_craftIcmp rfcCodec sampleSender 8 0 (some pingBytes) 4 =
        Except.ok (self1, { _iphdr := iphdr, _payload := IpPayload._icmp icmp }) ∧
      ∃ self2 iphdr2 icmp2,
        Sender_updateIcmpPacket_times rfcCodec 2 self1
            { _iphdr := iphdr, _payload := IpPayload._icmp icmp } =
          Except.ok (self2, { _iphdr := iphdr2, _payload := IpPayload._icmp icmp2 }) ∧
        icmp2._icmphdr._rest = IcmpRest.echo 3 2 ∧ iphdr2._id = 4244 := by
  refine ⟨by decide, by decide, by decide, ?_⟩
  obtain ⟨self1, iphdr, icmp, hc, -, -, ⟨self2, iphdr2, icmp2, ht, hrest, hid⟩, -⟩ :=
    Sender_updateIcmpPacket_times_progression rfcCodec sampleSender 0 (some pingBytes) 4 2
      (by decide) (by decide) (by decide)
  exact ⟨self1, iphdr, icmp, hc, self2, iphdr2, icmp2, ht, hrest, hid⟩

/-! ## Transmission -/

/-- A `Sender_sendto` call returns exactly when the system call does not
report a negative value; it then leaves the sender with the message counter
incremented as an `int` and the completion flag set, and its events are
`sendtoEvents`. -/
theorem Sender_sendto_ok (E : Codec) (H : Host) (self : Sender) (pckt : IpPacket)
    (h : ¬ H.sendto self._socket (E.IpPacket_encode pckt) self._dstaddress < 0) :
    Sender_sendto E H self pckt =
      Except.ok
        ({ self with _msgcnt := wrapInt32 (self._msgcnt + 1), _sent := true },
         sendtoEvents self (E.IpPacket_encode pckt)) := by
  simp only [Sender_sendto, Sender_bsendto, if_neg h, sendtoEvents]

/-- A `Sender_sendto` call whose system call reports a negative value is
fatal. -/
theorem Sender_sendto_error (E : Codec) (H : Host) (self : Sender) (pckt : IpPacket)
    (h : H.sendto self._socket (E.IpPacket_encode pckt) self._dstaddress < 0) :
    Sender_sendto E H self pckt = Except.error (Stop.sendtoError self._socket) := by
  simp only [Sender_sendto, Sender_bsendto, if_pos h]

/-- The result of a `Sender_sendto` call that returns. -/
theorem Sender_sendto_inv (E : Codec) (H : Host) (self : Sender) (pckt : IpPacket)
    (t : Sender) (ev : List Event) (hok : Sender_sendto E H self pckt = Except.ok (t, ev)) :
    t = { self with _msgcnt := wrapInt32 (self._msgcnt + 1), _sent := true } ∧
    ev = sendtoEvents self (E.IpPacket_encode pckt) := by
  by_cases h : H.sendto self._socket (E.IpPacket_encode pckt) self._dstaddress < 0
  · rw [Sender_sendto_error E H self pckt h] at hok
    cases hok
  · rw [Sender_sendto_ok E H self pckt h] at hok
    cases hok
    exact ⟨rfl, rfl⟩

/-- Among the events of a `Sender_sendto` call there is one raw send, of the
given bytes. -/
theorem sendtoEvents_filter_isSendto (self : Sender) (buffer : List Nat) :
    (sendtoEvents self buffer).filter Event.isSendto =
      [Event.sendto self._socket buffer self._dstaddress] := by
  unfold sendtoEvents
  cases self._synch <;> cases self._verbose <;> simp [Event.isSendto]

/-- Within the range of `int` and below its largest value, the `int`
increment is the increment. -/
theorem wrapInt32_succ (x : Int) (hlo : -2147483648 ≤ x) (hhi : x < 2147483647) :
    wrapInt32 (x + 1) = x + 1 := by
  unfold wrapInt32
  omega

/-- C15, as stated, fails at the largest `int`: a `Sender_sendto` call that
returns on a sender whose message counter is 2147483647 leaves the counter at
-2147483648, not one higher. -/
theorem Sender_sendto_msgcnt_wraps :
    ∃ t ev,
      Sender_sendto rfcCodec sampleHost { sampleSender with _msgcnt := 2147483647 }
          (IpPacket_newIcmp 8 0 4) = Except.ok (t, ev) ∧
      t._msgcnt = -2147483648 ∧
      t._msgcnt ≠ ({ sampleSender with _msgcnt := 2147483647 } : Sender)._msgcnt + 1 := by
  refine ⟨_, _, rfl, ?_, ?_⟩ <;> decide

/-- C15, amended: every `Sender_sendto` call that returns, whatever the
verbose and synchronized flags, increments the message counter as the C `int`
it is (one higher from every value below 2147483647, and -2147483648 from
2147483647), leaves the completion flag true, sends the encoding of the given
packet once, and leaves every other field of the sender as it was. -/
theorem Sender_sendto_frame (E : Codec) (H : Host) (self : Sender) (pckt : IpPacket)
    (t : Sender) (ev : List Event) (hok : Sender_sendto E H self pckt = Except.ok (t, ev)) :
    t._msgcnt = wrapInt32 (self._msgcnt + 1) ∧
    (-2147483648 ≤ self._msgcnt → self._msgcnt < 2147483647 →
      t._msgcnt = self._msgcnt + 1) ∧
    (self._msgcnt = 2147483647 → t._msgcnt = -2147483648) ∧
    t._sent = true ∧
    ev.filter Event.isSendto =
      [Event.sendto self._socket (E.IpPacket_encode pckt) self._dstaddress] ∧
    t._lastid = self._lastid ∧ t._lsticmpid = self._lsticmpid ∧ t._icmpsn = self._icmpsn ∧
    t._params = self._params ∧ t._mtu = self._mtu ∧ t._dstaddress = self._dstaddress ∧
    t._proto = self._proto ∧ t._srcaddress = self._srcaddress ∧ t._gateway = self._gateway ∧
    t._socket = self._socket ∧ t._verbose = self._verbose ∧ t._timer = self._timer ∧
    t._synch = self._synch := by
  obtain ⟨ht, hev⟩ := Sender_sendto_inv E H self pckt t ev hok
  subst ht hev
  refine ⟨rfl, ?_, ?_, rfl, sendtoEvents_filter_isSendto self (E.IpPacket_encode pckt), rfl,
    rfl, rfl, rfl, rfl, rfl, rfl, rfl, rfl, rfl, rfl, rfl, rfl⟩
  · intro hlo hhi
    exact wrapInt32_succ self._msgcnt hlo hhi
  · intro hmax
    show wrapInt32 (self._msgcnt + 1) = -2147483648
    rw [hmax]
    decide

/-- The instance of the amended C15 at the Echo "ping" packet sent by
`sampleSender` in verbose mode on `sampleHost`: the counter goes from 0 to 1. -/
theorem Sender_sendto_frame_witness :
    ∃ t ev,
      Sender_sendto rfcCodec sampleHost { sampleSender with _verbose := true }
          (IpPacket_newIcmp 8 0 4) = Except.ok (t, ev) ∧
      t._msgcnt = ({ sampleSender with _verbose := true } : Sender)._msgcnt + 1 ∧
      t._msgcnt = 1 ∧ t._sent = true ∧
      ev.filter Event.isSendto =
        [Event.sendto 3 (rfcCodec.IpPacket_encode (IpPacket_newIcmp 8 0 4))
          sampleSender._dstaddress] :=
  ⟨_, _, rfl,
   (Sender_sendto_frame rfcCodec sampleHost { sampleSender with _verbose := true }
      (IpPacket_newIcmp 8 0 4) _ _ rfl).2.1 (by decide) (by decide),
   by decide,
   (Sender_sendto_frame rfcCodec sampleHost { sampleSender with _verbose := true }
      (IpPacket_newIcmp 8 0 4) _ _ rfl).2.2.2.1,
   (Sender_sendto_frame rfcCodec sampleHost { sampleSender with _verbose := true }
      (IpPacket_newIcmp 8 0 4) _ _ rfl).2.2.2.2.1⟩

/-- A `Sender_fillIcmpHeader` call that returns leaves the sender as it was,
or with both ICMP counters advanced; nothing else is written. -/
theorem Sender_fillIcmpHeader_effect (E : Codec) (self : Sender) (pckt : IcmpPacket)
    (type code : Nat) (t : Sender) (pckt2 : IcmpPacket)
    (hok : Sender_fillIcmpHeader E self pckt type code = Except.ok (t, pckt2)) :
    t = self ∨
    t = { self with _lsticmpid := (self._lsticmpid + 1) % 2 ^ 16,
                    _icmpsn := (self._icmpsn + 1) % 2 ^ 16 } := by
  by_cases he : errorIcmpType type
  · rw [Sender_fillIcmpHeader_error_type E self pckt type code he] at hok
    split at hok <;> cases hok <;> exact Or.inl rfl
  · by_cases hr : type = ICMP_REDIRECT_TYPE
    · subst hr
      rw [Sender_fillIcmpHeader_redirect_type E self pckt code] at hok
      cases hok
      exact Or.inl rfl
    · by_cases hq : queryIcmpType type
      · rw [Sender_fillIcmpHeader_query_type E self pckt type code hq] at hok
        cases hok
        exact Or.inr rfl
      · have hns : ¬ supportedIcmpType type := by
          rintro (h | h | h)
          · exact he h
          · exact hr h
          · exact hq h
        rw [Sender_fillIcmpHeader_other_type E self pckt type code hns] at hok
        cases hok

/-- A `Sender_craftIcmp` call that returns: the packet carries the
identification the counter held, and the sender is the one
`Sender_fillIcmpHeader` leaves after the identification counter advanced. -/
theorem Sender_craftIcmp_inv (E : Codec) (self : Sender) (type code : Nat)
    (payload : Option (List Nat)) (size : Nat) (t : Sender) (pckt : IpPacket)
    (hok : Sender_craftIcmp E self type code payload size = Except.ok (t, pckt)) :
    pckt._iphdr._id = self._lastid ∧
    ∃ icmp0 icmp1,
      Sender_fillIcmpHeader E { self with _lastid := (self._lastid + 1) % 2 ^ 16 } icmp0
        type code = Except.ok (t, icmp1) := by
  simp only [Sender_craftIcmp, Sender_fillIpHeader, IpPacket_fillHeader, IpPacket_newIcmp]
    at hok
  cases hf : Sender_fillIcmpHeader E { self with _lastid := (self._lastid + 1) % 2 ^ 16 }
      { _icmphdr := { _type := type, _code := code, _checksum := 0, _rest := IcmpRest.unused },
        _payload := List.replicate size 0 } type code with
  | error e =>
    rw [hf] at hok
    cases hok
  | ok r =>
    obtain ⟨t2, icmp1⟩ := r
    rw [hf] at hok
    simp only [Except.ok.injEq, Prod.mk.injEq] at hok
    obtain ⟨ht, hp⟩ := hok
    subst ht hp
    exact ⟨rfl, _, _, hf⟩

/-- A `Sender_craftUdp` call returns, with the identification the counter
held in the packet and the counter advanced; nothing else is written. -/
theorem Sender_craftUdp_inv (E : Codec) (self : Sender) (port : Nat)
    (payload : Option (List Nat)) (size : Nat) (t : Sender) (pckt : IpPacket)
    (hok : Sender_craftUdp E self port payload size = Except.ok (t, pckt)) :
    pckt._iphdr._id = self._lastid ∧
    t = { self with _lastid := (self._lastid + 1) % 2 ^ 16 } := by
  simp only [Sender_craftUdp, Sender_fillIpHeader, IpPacket_fillHeader, IpPacket_newUdp,
    Except.ok.injEq, Prod.mk.injEq] at hok
  obtain ⟨ht, hp⟩ := hok
  subst ht hp
  exact ⟨rfl, rfl⟩

/-- The text `snprintf` keeps is the whole text when it has at most 59
characters. -/
theorem snprintf60_of_length_le (text : String) (h : text.length ≤ 59) :
    snprintf60 text = text := by
  unfold snprintf60
  have h2 : text.toList.take 59 = text.toList := List.take_of_length_le h
  rw [h2]
  cases text
  rfl

/-- C13, as stated, fails: the Echo "ping" packet crafted by the verbose
`sampleSender` carries identification 4242, and the file `Sender_sendto`
writes right after is named with 4243, the value of the counter, not with
the identification most recently written into a packet. -/
theorem Sender_sendto_filename_next_id :
    ∃ self1 pckt1 self2 ev,
      Sender_craftIcmp rfcCodec { sampleSender with _verbose := true } 8 0 (some pingBytes) 4 =
        Except.ok (self1, pckt1) ∧
      Sender_sendto rfcCodec sampleHost self1 pckt1 = Except.ok (self2, ev) ∧
      pckt1._iphdr._id = 4242 ∧
      Event.writeToFile ("sent_4243_1_icmp.bin") (rfcCodec.IpPacket_encode pckt1) ∈ ev ∧
      Event.writeToFile ("sent_4242_1_icmp.bin") (rfcCodec.IpPacket_encode pckt1) ∉ ev := by
  refine ⟨_, _, _, _, rfl, rfl, ?_, ?_, ?_⟩ <;> decide

/-- C13, amended: in verbose mode a `Sender_sendto` call that returns writes
one file, whose contents are the bytes passed to the raw send and whose name
is what `snprintf` keeps of `sent_<I>_<N>_<proto>.bin` (all of it when it has
at most 59 characters), where `<I>` is the value of the identification
counter of the sender at the call, `<N>` the message counter after this send
(the `int` increment of the one before) and `<proto>` the protocol name; for
a packet sent right after the `Sender_craftIcmp`, `Sender_craftUdp`,
`Sender_fillIpHeader`, `Sender_updateIcmpPacket` or `Sender_updateUdpPacket`
call that returned it, `<I>` is the identification the packet carries plus
one, modulo 2^16. -/
theorem Sender_sendto_filename (E : Codec) (H : Host) (self : Sender) (pckt : IpPacket)
    (t : Sender) (ev : List Event) (hv : self._verbose = true)
    (hok : Sender_sendto E H self pckt = Except.ok (t, ev)) :
    t._msgcnt = wrapInt32 (self._msgcnt + 1) ∧
    Event.sendto self._socket (E.IpPacket_encode pckt) self._dstaddress ∈ ev ∧
    Event.writeToFile
      (snprintf60 (sentFileFormat self._lastid t._msgcnt self._proto.p_name))
      (E.IpPacket_encode pckt) ∈ ev ∧
    (∀ name buffer, Event.writeToFile name buffer ∈ ev →
      name = snprintf60 (sentFileFormat self._lastid t._msgcnt self._proto.p_name) ∧
      buffer = E.IpPacket_encode pckt) ∧
    ((sentFileFormat self._lastid t._msgcnt self._proto.p_name).length ≤ 59 →
      snprintf60 (sentFileFormat self._lastid t._msgcnt self._proto.p_name) =
        sentFileFormat self._lastid t._msgcnt self._proto.p_name) ∧
    (∀ self0 type code payload size,
      Sender_craftIcmp E self0 type code payload size = Except.ok (self, pckt) →
      self._lastid = (pckt._iphdr._id + 1) % 2 ^ 16) ∧
    (∀ self0 port payload size,
      Sender_craftUdp E self0 port payload size = Except.ok (self, pckt) →
      self._lastid = (pckt._iphdr._id + 1) % 2 ^ 16) ∧
    (∀ self0 pckt0,
      Sender_fillIpHeader E self0 pckt0 = (self, pckt) →
      self._lastid = (pckt._iphdr._id + 1) % 2 ^ 16) ∧
    (∀ self0 pckt0,
      Sender_updateIcmpPacket E self0 pckt0 = Except.ok (self, pckt) →
      self._lastid = (pckt._iphdr._id + 1) % 2 ^ 16) ∧
    (∀ self0 pckt0,
      Sender_updateUdpPacket E self0 pckt0 = Except.ok (self, pckt) →
      self._lastid = (pckt._iphdr._id + 1) % 2 ^ 16) := by
  obtain ⟨ht, hev⟩ := Sender_sendto_inv E H self pckt t ev hok
  subst ht hev
  refine ⟨rfl, ?_, ?_, ?_, ?_, ?_, ?_, ?_, ?_, ?_⟩
  · unfold sendtoEvents
    simp
  · unfold sendtoEvents
    simp [hv]
  · intro name buffer hmem
    unfold sendtoEvents at hmem
    cases hsy : self._synch <;> simp [hv, hsy] at hmem <;> exact hmem
  · intro hlen
    exact snprintf60_of_length_le _ hlen
  · intro self0 type code payload size hc
    obtain ⟨hid, icmp0, icmp1, hf⟩ := Sender_craftIcmp_inv E self0 type code payload size _ _ hc
    rw [hid]
    rcases Sender_fillIcmpHeader_effect E _ _ _ _ _ _ hf with h | h <;> rw [h]
  · intro self0 port payload size hc
    obtain ⟨hid, h⟩ := Sender_craftUdp_inv E self0 port payload size _ _ hc
    rw [hid, h]
  · intro self0 pckt0 hc
    simp only [Sender_fillIpHeader, IpPacket_fillHeader, Prod.mk.injEq] at hc
    obtain ⟨h1, h2⟩ := hc
    rw [← h1, ← h2]
  · intro self0 pckt0 hc
    obtain ⟨iphdr0, pl⟩ := pckt0
    cases pl with
    | _udp udp =>
      simp only [Sender_updateIcmpPacket] at hc
      cases hc
    | _icmp icmp =>
      by_cases htype : icmp._icmphdr._type = ICMP_ECHO_TYPE ∨
          icmp._icmphdr._type = ICMP_INFORMATION_REQUEST_TYPE
      · rw [Sender_updateIcmpPacket_request E self0 iphdr0 icmp htype] at hc
        simp only [Except.ok.injEq, Prod.mk.injEq] at hc
        obtain ⟨h1, h2⟩ := hc
        rw [← h1, ← h2]
        rfl
      · rw [Sender_updateIcmpPacket_other E self0 iphdr0 icmp htype] at hc
        simp only [Except.ok.injEq, Prod.mk.injEq] at hc
        obtain ⟨h1, h2⟩ := hc
        rw [← h1, ← h2]
        rfl
  · intro self0 pckt0 hc
    obtain ⟨iphdr0, pl⟩ := pckt0
    cases pl with
    | _icmp icmp =>
      simp only [Sender_updateUdpPacket] at hc
      cases hc
    | _udp udp =>
      rw [Sender_updateUdpPacket_udp E self0 iphdr0 udp] at hc
      simp only [Except.ok.injEq, Prod.mk.injEq] at hc
      obtain ⟨h1, h2⟩ := hc
      rw [← h1, ← h2]
      rfl

/-- The instance of the amended C13 at the Echo "ping" packet crafted and
sent by the verbose `sampleSender`: the file is `sent_4243_1_icmp.bin`. -/
theorem Sender_sendto_filename_witness :
    ({ sampleSender with _verbose := true, _lastid := 4243, _lsticmpid := 2, _icmpsn := 1 } :
      Sender)._verbose = true ∧
    ∃ pckt t ev,
      Sender_sendto rfcCodec sampleHost
          { sampleSender with _verbose := true, _lastid := 4243, _lsticmpid := 2, _icmpsn := 1 }
          pckt = Except.ok (t, ev) ∧
      Event.writeToFile (snprintf60 (sentFileFormat 4243 t._msgcnt ("icmp")))
        (rfcCodec.IpPacket_encode pckt) ∈ ev ∧
      snprintf60 (sentFileFormat 4243 t._msgcnt ("icmp")) = ("sent_4243_1_icmp.bin") :=
  ⟨rfl, IpPacket_newIcmp 8 0 4, _, _, rfl,
   (Sender_sendto_filename rfcCodec sampleHost
      { sampleSender with _verbose := true, _lastid := 4243, _lsticmpid := 2, _icmpsn := 1 }
      (IpPacket_newIcmp 8 0 4) _ _ rfl rfl).2.2.1,
   by decide⟩

/-- C16, as stated, fails: `sampleSender` has no timer attached, and
`Sender_send` with a delay of 2 seconds still ends with a sleep of 2 seconds
after the raw send. -/
theorem Sender_send_sleeps_without_timer :
    sampleSender._timer = none ∧
    ∃ t ev,
      Sender_send rfcCodec sampleHost sampleSender (IpPacket_newIcmp 8 0 4) 2 =
        Except.ok (t, ev) ∧
      ev =
        [Event.sendto 3 (rfcCodec.IpPacket_encode (IpPacket_newIcmp 8 0 4))
          sampleSender._dstaddress,
         Event.Timer_sleep 2] ∧
      Event.Timer_sleep 2 ∈ ev :=
  ⟨rfl, _, _, rfl, rfl, by simp⟩

/-- C16, amended: a `Sender_send(packet, delay)` call that returns sends the
packet exactly once and then sleeps for `delay` seconds, whether or not a
timer is attached; when no timer is attached it resets no timer reference,
and when one is attached it resets the timer reference first, then sends,
then sleeps. -/
theorem Sender_send_events (E : Codec) (H : Host) (self : Sender) (pckt : IpPacket)
    (delay : ℚ) (t : Sender) (ev : List Event)
    (hok : Sender_send E H self pckt delay = Except.ok (t, ev)) :
    ∃ ev2,
      Sender_sendto E H self pckt = Except.ok (t, ev2) ∧
      ev2.filter Event.isSendto =
        [Event.sendto self._socket (E.IpPacket_encode pckt) self._dstaddress] ∧
      Event.Timer_resetPrevious ∉ ev2 ∧
      (∀ d, Event.Timer_sleep d ∉ ev2) ∧
      (self._timer = none →
        ev = ev2 ++ [Event.Timer_sleep delay] ∧ Event.Timer_resetPrevious ∉ ev) ∧
      (∀ timer, self._timer = some timer →
        ev = [Event.Timer_resetPrevious] ++ ev2 ++ [Event.Timer_sleep delay]) := by
  unfold Sender_send at hok
  cases hs : Sender_sendto E H self pckt with
  | error e =>
    rw [hs] at hok
    cases hok
  | ok r =>
    obtain ⟨t2, ev2⟩ := r
    rw [hs] at hok
    simp only [Except.ok.injEq, Prod.mk.injEq] at hok
    obtain ⟨ht, hev⟩ := hok
    subst ht
    obtain ⟨-, hev2⟩ := Sender_sendto_inv E H self pckt t2 ev2 hs
    have hno1 : Event.Timer_resetPrevious ∉ ev2 := by
      rw [hev2]
      unfold sendtoEvents
      cases self._synch <;> cases self._verbose <;> simp
    have hno2 : ∀ d, Event.Timer_sleep d ∉ ev2 := by
      intro d
      rw [hev2]
      unfold sendtoEvents
      cases self._synch <;> cases self._verbose <;> simp
    refine ⟨ev2, rfl, ?_, hno1, hno2, ?_, ?_⟩
    · rw [hev2]
      exact sendtoEvents_filter_isSendto self (E.IpPacket_encode pckt)
    · intro hnone
      rw [hnone] at hev
      simp only [List.nil_append] at hev
      subst hev
      refine ⟨rfl, ?_⟩
      simp [hno1]
    · intro timer hsome
      rw [hsome] at hev
      exact hev.symm

/-- The instance of the amended C16 at `sampleSender` with a timer attached:
reset, raw send, sleep, in that order. -/
theorem Sender_send_events_witness :
    ∃ t ev,
      Sender_send rfcCodec sampleHost (Sender_setTimer sampleSender (some { _previous := 0 }))
          (IpPacket_newIcmp 8 0 4) 2 = Except.ok (t, ev) ∧
      ev =
        [Event.Timer_resetPrevious,
         Event.sendto 3 (rfcCodec.IpPacket_encode (IpPacket_newIcmp 8 0 4))
          sampleSender._dstaddress,
         Event.Timer_sleep 2] := by
  refine ⟨_, _, rfl, ?_⟩
  obtain ⟨ev2, hs, -, -, -, -, hsome⟩ :=
    Sender_send_events rfcCodec sampleHost (Sender_setTimer sampleSender (some { _previous := 0 }))
      (IpPacket_newIcmp 8 0 4) 2 _ _ rfl
  rfl

/-! ## The packet shell -/

/-- C14, as stated, fails: for `sampleSender`, whose don't-fragment flag is
set, the shell `Sender_createIpPacket` returns has the don't-fragment bit in
its flags field (16384 with the standard packing), not zero flags. -/
theorem Sender_createIpPacket_flags_not_zero :
    sampleSender._params._df = 1 ∧
    (Sender_createIpPacket rfcCodec sampleSender 7).2._flagoff = 16384 ∧
    (Sender_createIpPacket rfcCodec sampleSender 7).2._flagoff ≠ rfcCodec.computeFlagOff 0 0 0 0 ∧
    (Sender_createIpPacket rfcCodec sampleSender 7).2._flagoff ≠ 0 := by
  decide

/-- C14, amended: `Sender_createIpPacket` returns a shell built with version
4, the given identification, total length equal to the bare IP header size,
the flags the sender is configured with (reserved, don't-fragment,
more-fragments) packed with a zero fragment offset, the default TTL, the
protocol of the sender and a zero checksum; it leaves the sender, its
counters included, as it was. -/
theorem Sender_createIpPacket_shell (E : Codec) (self : Sender) (id : Nat) :
    (Sender_createIpPacket E self id).2._version = 4 ∧
    (Sender_createIpPacket E self id).2._id = id ∧
    (Sender_createIpPacket E self id).2._tlength = IP_HEADER_SIZE ∧
    (Sender_createIpPacket E self id).2._flagoff =
      E.computeFlagOff self._params._xf self._params._df self._params._mf 0 ∧
    (Sender_createIpPacket E self id).2._ttl = E.TTL_DEFAULT_VALUE ∧
    (Sender_createIpPacket E self id).2._protocol = self._proto.p_proto ∧
    (Sender_createIpPacket E self id).2._checksum = 0 ∧
    (Sender_createIpPacket E self id).2._srcaddr = E.inet_network self._srcaddress ∧
    (Sender_createIpPacket E self id).2._dstaddr = E.ntohl self._dstaddress.sin_addr ∧
    (Sender_createIpPacket E self id).1 = self :=
  ⟨rfl, rfl, rfl, rfl, rfl, rfl, rfl, rfl, rfl, rfl⟩

/-! ## The UDP checksum under repeated updates -/

/-- The carry fold, given at least as many rounds as the sum, is the
end-around-carry residue of the sum: 0 for 0, else the value in 1..65535
congruent to it modulo 65535. -/
theorem foldCarry_closed (fuel : Nat) : ∀ sum, sum ≤ fuel →
    foldCarry fuel sum = if sum = 0 then 0 else (sum - 1) % 65535 + 1 := by
  induction fuel with
  | zero =>
    intro sum h
    have h0 : sum = 0 := by omega
    subst h0
    rfl
  | succ fuel ih =>
    intro sum h
    unfold foldCarry
    by_cases hlt : sum < 65536
    · rw [if_pos hlt]
      split <;> omega
    · rw [if_neg hlt]
      have hle : sum % 65536 + sum / 65536 ≤ fuel := by omega
      rw [ih _ hle]
      have h1 : sum % 65536 + sum / 65536 ≠ 0 := by omega
      have h2 : sum ≠ 0 := by omega
      rw [if_neg h1, if_neg h2]
      omega

/-- The standard checksum in closed form. -/
theorem computeChecksum_closed (buffer : List Nat) :
    computeChecksum buffer =
      65535 - (if sumWords buffer = 0 then 0 else (sumWords buffer - 1) % 65535 + 1) := by
  unfold computeChecksum
  rw [foldCarry_closed _ _ (Nat.le_refl _)]

/-- The word sum of an encoded UDP sub-packet: the four header words, each on
a 16-bit boundary, and the word sum of the payload. -/
theorem sumWords_UdpPacket_encode (p : UdpPacket) :
    sumWords (UdpPacket_encode p) =
      (p._hdr._srcport / 256 % 256 * 256 + p._hdr._srcport % 256) +
      (p._hdr._dstport / 256 % 256 * 256 + p._hdr._dstport % 256) +
      (p._hdr._length / 256 % 256 * 256 + p._hdr._length % 256) +
      (p._hdr._checksum / 256 % 256 * 256 + p._hdr._checksum % 256) +
      sumWords p._payload := by
  have h : UdpPacket_encode p =
      (p._hdr._srcport / 256 % 256) :: (p._hdr._srcport % 256) ::
      (p._hdr._dstport / 256 % 256) :: (p._hdr._dstport % 256) ::
      (p._hdr._length / 256 % 256) :: (p._hdr._length % 256) ::
      (p._hdr._checksum / 256 % 256) :: (p._hdr._checksum % 256) :: p._payload := rfl
  rw [h]
  simp only [sumWords]
  omega

/-- The standard checksum is a 16-bit value. -/
theorem computeChecksum_lt (buffer : List Nat) : computeChecksum buffer < 65536 := by
  unfold computeChecksum
  omega


/-- The standard checksum of a UDP sub-packet that holds its own checksum is
zero. -/
theorem udp_checksum_after_store (z : UdpPacket) :
    computeChecksum (UdpPacket_encode
      { _hdr := UdpHeader_setChecksum z._hdr (computeChecksum (UdpPacket_encode z.zeroChecksum)),
        _payload := z._payload }) = 0 := by
  have hc := computeChecksum_closed (UdpPacket_encode z.zeroChecksum)
  have hlt := computeChecksum_lt (UdpPacket_encode z.zeroChecksum)
  rw [computeChecksum_closed, sumWords_UdpPacket_encode]
  rw [sumWords_UdpPacket_encode] at hc
  simp only [UdpPacket.zeroChecksum, UdpHeader_setChecksum] at hc hlt ⊢
  generalize computeChecksum (UdpPacket_encode
    { _hdr := { z._hdr with _checksum := 0 }, _payload := z._payload }) = c at hc hlt ⊢
  generalize sumWords z._payload = sp at hc ⊢
  generalize z._hdr._srcport / 256 % 256 * 256 + z._hdr._srcport % 256 = a at hc ⊢
  generalize z._hdr._dstport / 256 % 256 * 256 + z._hdr._dstport % 256 = b at hc ⊢
  generalize z._hdr._length / 256 % 256 * 256 + z._hdr._length % 256 = l at hc ⊢
  have hcw : c / 256 % 256 * 256 + c % 256 = c := by omega
  rw [hcw]
  simp only [Nat.zero_div, Nat.zero_mod, Nat.zero_mul, Nat.add_zero] at hc
  split at hc <;> split <;> omega

/-- With the standard checksum and UDP layout, `k` updates of a packet whose
checksum field holds either its own checksum `c` or zero leave it holding the
same value when `k` is even and the other one when `k` is odd. -/
theorem Sender_updateUdpPacket_times_flip (E : Codec)
    (hcs : E.computeChecksum = computeChecksum) (henc : E.UdpPacket_encode = UdpPacket_encode)
    (z : UdpPacket) (k : Nat) :
    ∀ (self : Sender) (iphdr : IpHeader) (x : Nat),
      x = computeChecksum (UdpPacket_encode z.zeroChecksum) ∨ x = 0 →
      ∃ self2 iphdr2,
        Sender_updateUdpPacket_times E k self
            { _iphdr := iphdr,
              _payload := IpPayload._udp
                { _hdr := UdpHeader_setChecksum z._hdr x, _payload := z._payload } } =
          Except.ok
            (self2,
             { _iphdr := iphdr2,
               _payload := IpPayload._udp
                 { _hdr := UdpHeader_setChecksum z._hdr
                     (if k % 2 = 0 then x
                      else if x = computeChecksum (UdpPacket_encode z.zeroChecksum) then 0
                      else computeChecksum (UdpPacket_encode z.zeroChecksum)),
                   _payload := z._payload } }) := by
  induction k with
  | zero =>
    intro self iphdr x _
    exact ⟨self, iphdr, rfl⟩
  | succ k ih =>
    intro self iphdr x hx
    have hstep := Sender_updateUdpPacket_udp E self iphdr
      { _hdr := UdpHeader_setChecksum z._hdr x, _payload := z._payload }
    rw [hcs, henc] at hstep
    have hnext : computeChecksum (UdpPacket_encode
        { _hdr := UdpHeader_setChecksum z._hdr x, _payload := z._payload }) =
        (if x = computeChecksum (UdpPacket_encode z.zeroChecksum) then 0
         else computeChecksum (UdpPacket_encode z.zeroChecksum)) := by
      by_cases hxc : x = computeChecksum (UdpPacket_encode z.zeroChecksum)
      · rw [if_pos hxc, hxc]
        exact udp_checksum_after_store z
      · rw [if_neg hxc]
        rcases hx with hx | hx
        · exact absurd hx hxc
        · rw [hx]
          rfl
    rw [hnext] at hstep
    have hx2 : (if x = computeChecksum (UdpPacket_encode z.zeroChecksum) then 0
         else computeChecksum (UdpPacket_encode z.zeroChecksum)) =
          computeChecksum (UdpPacket_encode z.zeroChecksum) ∨
        (if x = computeChecksum (UdpPacket_encode z.zeroChecksum) then 0
         else computeChecksum (UdpPacket_encode z.zeroChecksum)) = 0 := by
      split
      · exact Or.inr rfl
      · exact Or.inl rfl
    obtain ⟨self2, iphdr2, hok⟩ :=
      ih { self with _lastid := (self._lastid + 1) % 2 ^ 16 }
        (IpHeader_setIdentfication iphdr self._lastid) _ hx2
    refine ⟨self2, iphdr2, ?_⟩
    rw [Sender_updateUdpPacket_times, hstep]
    simp only [UdpHeader_setChecksum] at hok ⊢
    rw [hok]
    have hval : (if k % 2 = 0 then
          (if x = computeChecksum (UdpPacket_encode z.zeroChecksum) then 0
           else computeChecksum (UdpPacket_encode z.zeroChecksum))
        else if (if x = computeChecksum (UdpPacket_encode z.zeroChecksum) then 0
            else computeChecksum (UdpPacket_encode z.zeroChecksum)) =
            computeChecksum (UdpPacket_encode z.zeroChecksum) then 0
          else computeChecksum (UdpPacket_encode z.zeroChecksum)) =
        (if (k + 1) % 2 = 0 then x
         else if x = computeChecksum (UdpPacket_encode z.zeroChecksum) then 0
         else computeChecksum (UdpPacket_encode z.zeroChecksum)) := by
      generalize computeChecksum (UdpPacket_encode z.zeroChecksum) = c at hx ⊢
      rcases hx with hx | hx <;> subst hx <;> split_ifs <;> omega
    rw [hval]

/-- What `Sender_craftUdp` returns: the identification counter advances, and
the UDP sub-packet holds the checksum of its own encoding with a zero
checksum field. -/
theorem Sender_craftUdp_ok (E : Codec) (self : Sender) (port : Nat)
    (payload : Option (List Nat)) (size : Nat) :
    Sender_craftUdp E self port payload size =
      Except.ok
        ({ self with _lastid := (self._lastid + 1) % 2 ^ 16 },
         { _iphdr := (Sender_fillIpHeader E self (IpPacket_newUdp size)).2._iphdr,
           _payload := IpPayload._udp
             { _hdr := UdpHeader_setChecksum
                 { _srcport := port, _dstport := E.ntohs self._dstaddress.sin_port,
                   _length := (UDP_HEADER_SIZE + size) % 2 ^ 16, _checksum := 0 }
                 (E.computeChecksum (E.UdpPacket_encode
                   { _hdr := { _srcport := port, _dstport := E.ntohs self._dstaddress.sin_port,
                               _length := (UDP_HEADER_SIZE + size) % 2 ^ 16, _checksum := 0 },
                     _payload := craftedPayload payload size })),
               _payload := craftedPayload payload size } }) := by
  simp only [Sender_craftUdp, Sender_fillIpHeader, IpPacket_fillHeader, IpPacket_newUdp,
    Sender_fillUdpHeader, UdpPacket_fillHeader, UdpPacket_getPacketSize]
  cases payload with
  | none => simp [craftedPayload, UdpHeader_setChecksum]
  | some bytes =>
    by_cases hs : size > 0
    · simp [hs, craftedPayload, UdpPacket_fillPayload, UdpHeader_setChecksum]
    · simp [hs, craftedPayload, UdpPacket_fillPayload, UdpHeader_setChecksum]

/-- C18: with the standard one's-complement checksum and the UDP layout that
puts the checksum field on a 16-bit word boundary, for every packet
`Sender_craftUdp` returns, one `Sender_updateUdpPacket` call stores 0 in the
UDP checksum field, a second call restores the value `Sender_craftUdp`
stored, and after `k` calls the field holds the crafted value when `k` is
even and 0 when `k` is odd. -/
theorem Sender_updateUdpPacket_alternates (E : Codec) (self : Sender) (port : Nat)
    (payload : Option (List Nat)) (size : Nat) (k : Nat)
    (hcs : E.computeChecksum = computeChecksum) (henc : E.UdpPacket_encode = UdpPacket_encode) :
    ∃ self1 iphdr udp,
      Sender_craftUdp E self port payload size =
        Except.ok (self1, { _iphdr := iphdr, _payload := IpPayload._udp udp }) ∧
      udp._hdr._checksum = computeChecksum (UdpPacket_encode udp.zeroChecksum) ∧
      (∃ self2 iphdr2 udp2,
        Sender_updateUdpPacket E self1 { _iphdr := iphdr, _payload := IpPayload._udp udp } =
          Except.ok (self2, { _iphdr := iphdr2, _payload := IpPayload._udp udp2 }) ∧
        udp2._hdr._checksum = 0 ∧
        ∃ self3 iphdr3 udp3,
          Sender_updateUdpPacket E self2
              { _iphdr := iphdr2, _payload := IpPayload._udp udp2 } =
            Except.ok (self3, { _iphdr := iphdr3, _payload := IpPayload._udp udp3 }) ∧
          udp3._hdr._checksum = udp._hdr._checksum) ∧
      (∃ self2 iphdr2 udp2,
        Sender_updateUdpPacket_times E k self1
            { _iphdr := iphdr, _payload := IpPayload._udp udp } =
          Except.ok (self2, { _iphdr := iphdr2, _payload := IpPayload._udp udp2 }) ∧
        udp2._hdr._checksum = if k % 2 = 0 then udp._hdr._checksum else 0) := by
  rw [Sender_craftUdp_ok E self port payload size, hcs, henc]
  have hstore := udp_checksum_after_store
    { _hdr := { _srcport := port, _dstport := E.ntohs self._dstaddress.sin_port,
                _length := (UDP_HEADER_SIZE + size) % 2 ^ 16, _checksum := 0 },
      _payload := craftedPayload payload size }
  refine ⟨_, _, _, rfl, rfl, ?_, ?_⟩
  · rw [Sender_updateUdpPacket_udp, hcs, henc]
    refine ⟨_, _, _, rfl, hstore, ?_⟩
    rw [Sender_updateUdpPacket_udp, hcs, henc]
    refine ⟨_, _, _, rfl, ?_⟩
    simp only [UdpHeader_setChecksum, UdpPacket.zeroChecksum] at hstore ⊢
    rw [hstore]
  · obtain ⟨self2, iphdr2, hok⟩ :=
      Sender_updateUdpPacket_times_flip E hcs henc
        { _hdr := { _srcport := port, _dstport := E.ntohs self._dstaddress.sin_port,
                    _length := (UDP_HEADER_SIZE + size) % 2 ^ 16, _checksum := 0 },
          _payload := craftedPayload payload size } k
        { self with _lastid := (self._lastid + 1) % 2 ^ 16 }
        (Sender_fillIpHeader E self (IpPacket_newUdp size)).2._iphdr
        (computeChecksum (UdpPacket_encode
          { _hdr := { _srcport := port, _dstport := E.ntohs self._dstaddress.sin_port,
                      _length := (UDP_HEADER_SIZE + size) % 2 ^ 16, _checksum := 0 },
            _payload := craftedPayload payload size })) (Or.inl rfl)
    refine ⟨self2, iphdr2, _, hok, ?_⟩
    show (if k % 2 = 0 then _ else if _ = _ then 0 else _) = _
    by_cases hk : k % 2 = 0
    · rw [if_pos hk, if_pos hk]
      rfl
    · rw [if_neg hk, if_neg hk]
      exact if_pos rfl

/-- The instance of C18 at the UDP "ping" packet of `sampleUdpSender`: 33965
when crafted, 0 after one update, 33965 after two, 0 after three. -/
theorem Sender_updateUdpPacket_alternates_witness :
    rfcCodec.computeChecksum = computeChecksum ∧ rfcCodec.UdpPacket_encode = UdpPacket_encode ∧
    ∃ self1 iphdr udp,
      Sender_craftUdp rfcCodec sampleUdpSender 40000 (some pingBytes) 4 =
        Except.ok (self1, { _iphdr := iphdr, _payload := IpPayload._udp udp }) ∧
      udp._hdr._checksum = 33965 ∧
      ∃ self2 iphdr2 udp2,
        Sender_updateUdpPacket_times rfcCodec 3 self1
            { _iphdr := iphdr, _payload := IpPayload._udp udp } =
          Except.ok (self2, { _iphdr := iphdr2, _payload := IpPayload._udp udp2 }) ∧
        udp2._hdr._checksum = 0 := by
  refine ⟨rfl, rfl, ?_⟩
  obtain ⟨self1, iphdr, udp, hc, -, -, ⟨self2, iphdr2, udp2, ht, hv⟩⟩ :=
    Sender_updateUdpPacket_alternates rfcCodec sampleUdpSender 40000 (some pingBytes) 4 3 rfl rfl
  have hcraft := Sender_craftUdp_ok rfcCodec sampleUdpSender 40000 (some pingBytes) 4
  rw [hcraft] at hc
  simp only [Except.ok.injEq, Prod.mk.injEq, IpPacket.mk.injEq, IpPayload._udp.injEq] at hc
  obtain ⟨h1, h2, h3⟩ := hc
  subst h1 h2 h3
  exact ⟨_, _, _, hcraft, by decide, self2, iphdr2, udp2, ht, hv⟩

/-! ## Invariants of the reachable states -/

/-- A `Sender_updateIcmpPacket` call that returns leaves the synchronized
flag as it was and the two ICMP counters either untouched or both advanced. -/
theorem Sender_updateIcmpPacket_effect (E : Codec) (self : Sender) (pckt : IpPacket)
    (t : Sender) (pckt2 : IpPacket)
    (hok : Sender_updateIcmpPacket E self pckt = Except.ok (t, pckt2)) :
    t._synch = self._synch ∧
    ((t._lsticmpid = self._lsticmpid ∧ t._icmpsn = self._icmpsn) ∨
     (t._lsticmpid = (self._lsticmpid + 1) % 2 ^ 16 ∧
      t._icmpsn = (self._icmpsn + 1) % 2 ^ 16)) := by
  obtain ⟨iphdr, pl⟩ := pckt
  cases pl with
  | _udp udp =>
    simp only [Sender_updateIcmpPacket] at hok
    cases hok
  | _icmp icmp =>
    by_cases ht : icmp._icmphdr._type = ICMP_ECHO_TYPE ∨
        icmp._icmphdr._type = ICMP_INFORMATION_REQUEST_TYPE
    · rw [Sender_updateIcmpPacket_request E self iphdr icmp ht] at hok
      cases hok
      exact ⟨rfl, Or.inr ⟨rfl, rfl⟩⟩
    · rw [Sender_updateIcmpPacket_other E self iphdr icmp ht] at hok
      cases hok
      exact ⟨rfl, Or.inl ⟨rfl, rfl⟩⟩

/-- A `Sender_updateUdpPacket` call that returns writes the identification
counter only. -/
theorem Sender_updateUdpPacket_effect (E : Codec) (self : Sender) (pckt : IpPacket)
    (t : Sender) (pckt2 : IpPacket)
    (hok : Sender_updateUdpPacket E self pckt = Except.ok (t, pckt2)) :
    t = { self with _lastid := (self._lastid + 1) % 2 ^ 16 } := by
  obtain ⟨iphdr, pl⟩ := pckt
  cases pl with
  | _icmp icmp =>
    simp only [Sender_updateUdpPacket] at hok
    cases hok
  | _udp udp =>
    rw [Sender_updateUdpPacket_udp E self iphdr udp] at hok
    cases hok
    rfl

/-- What one operation of `sender.c` can do to the synchronized flag and to
the two ICMP counters: the flag is never written, and the counters are
either untouched or both advanced by one. -/
theorem Step_effect (E : Codec) (H : Host) (s t : Sender) (h : Step E H s t) :
    t._synch = s._synch ∧
    ((t._lsticmpid = s._lsticmpid ∧ t._icmpsn = s._icmpsn) ∨
     (t._lsticmpid = (s._lsticmpid + 1) % 2 ^ 16 ∧ t._icmpsn = (s._icmpsn + 1) % 2 ^ 16)) := by
  match h with
  | Step.setTimer _ _ => exact ⟨rfl, Or.inl ⟨rfl, rfl⟩⟩
  | Step.setMtu _ _ => exact ⟨rfl, Or.inl ⟨rfl, rfl⟩⟩
  | Step.setIpFlags _ _ _ => exact ⟨rfl, Or.inl ⟨rfl, rfl⟩⟩
  | Step.bsendto _ _ _ _ => exact ⟨rfl, Or.inl ⟨rfl, rfl⟩⟩
  | Step.sendto _ _ pckt ev hok =>
    obtain ⟨ht, -⟩ := Sender_sendto_inv E H s pckt t ev hok
    subst ht
    exact ⟨rfl, Or.inl ⟨rfl, rfl⟩⟩
  | Step.send _ _ pckt delay ev hok =>
    unfold Sender_send at hok
    cases hs : Sender_sendto E H s pckt with
    | error e =>
      rw [hs] at hok
      cases hok
    | ok r =>
      obtain ⟨t2, ev2⟩ := r
      rw [hs] at hok
      simp only [Except.ok.injEq, Prod.mk.injEq] at hok
      obtain ⟨ht, -⟩ := hok
      subst ht
      obtain ⟨ht2, -⟩ := Sender_sendto_inv E H s pckt t2 ev2 hs
      subst ht2
      exact ⟨rfl, Or.inl ⟨rfl, rfl⟩⟩
  | Step.printInfo _ => exact ⟨rfl, Or.inl ⟨rfl, rfl⟩⟩
  | Step.getDestinationIP _ => exact ⟨rfl, Or.inl ⟨rfl, rfl⟩⟩
  | Step.createIpPacket _ _ => exact ⟨rfl, Or.inl ⟨rfl, rfl⟩⟩
  | Step.fillIpHeader _ _ => exact ⟨rfl, Or.inl ⟨rfl, rfl⟩⟩
  | Step.fillIcmpHeader _ _ pckt pckt2 type code hok =>
    rcases Sender_fillIcmpHeader_effect E s pckt type code t pckt2 hok with ht | ht
    · subst ht
      exact ⟨rfl, Or.inl ⟨rfl, rfl⟩⟩
    · subst ht
      exact ⟨rfl, Or.inr ⟨rfl, rfl⟩⟩
  | Step.fillUdpHeader _ => exact ⟨rfl, Or.inl ⟨rfl, rfl⟩⟩
  | Step.craftIcmp _ _ type code payload size pckt hok =>
    obtain ⟨-, icmp0, icmp1, hf⟩ := Sender_craftIcmp_inv E s type code payload size t pckt hok
    rcases Sender_fillIcmpHeader_effect E _ icmp0 type code t icmp1 hf with ht | ht
    · subst ht
      exact ⟨rfl, Or.inl ⟨rfl, rfl⟩⟩
    · subst ht
      exact ⟨rfl, Or.inr ⟨rfl, rfl⟩⟩
  | Step.craftUdp _ _ port payload size pckt hok =>
    obtain ⟨-, ht⟩ := Sender_craftUdp_inv E s port payload size t pckt hok
    subst ht
    exact ⟨rfl, Or.inl ⟨rfl, rfl⟩⟩
  | Step.updateIcmpPacket _ _ pckt pckt2 hok =>
    exact Sender_updateIcmpPacket_effect E s pckt t pckt2 hok
  | Step.updateUdpPacket _ _ pckt pckt2 hok =>
    have ht := Sender_updateUdpPacket_effect E s pckt t pckt2 hok
    subst ht
    exact ⟨rfl, Or.inl ⟨rfl, rfl⟩⟩

/-- C20: in every sender state reachable from `Sender_new` by the operations
of `sender.c` the synchronized flag is false; hence a `Sender_sendto` call on
such a state neither waits on nor posts the semaphore, and `Sender_delete`
does not destroy it. -/
theorem synchronized_mode_never_on (E : Codec) (H : Host) (s : Sender)
    (hr : Reachable E H s) :
    s._synch = false ∧
    (∀ (pckt : IpPacket) (t : Sender) (ev : List Event),
      Sender_sendto E H s pckt = Except.ok (t, ev) →
      Event.semaphore_wait ∉ ev ∧ Event.semaphore_post ∉ ev) ∧
    Event.sem_destroy ∉ Sender_delete s := by
  have inv : s._synch = false := by
    induction hr with
    | new interface dstaddr gateway dstport proto verbose s hnew =>
      obtain ⟨pe, -, -, hs⟩ :=
        Sender_new_ok E H interface dstaddr gateway dstport proto verbose s hnew
      rw [hs]
    | step s t _ hstep ih =>
      rw [(Step_effect E H s t hstep).1]
      exact ih
  refine ⟨inv, ?_, ?_⟩
  · intro pckt t ev hok
    obtain ⟨-, hev⟩ := Sender_sendto_inv E H s pckt t ev hok
    rw [hev]
    unfold sendtoEvents
    rw [inv]
    cases s._verbose <;> simp
  · unfold Sender_delete
    rw [inv]
    simp

/-- The instance of C20 at the state `sampleHost` reaches by `Sender_new`
followed by `Sender_setMtu`. -/
theorem synchronized_mode_never_on_witness :
    (Sender_setMtu sampleSender 576)._synch = false ∧
    Event.sem_destroy ∉ Sender_delete (Sender_setMtu sampleSender 576) :=
  ⟨(synchronized_mode_never_on rfcCodec sampleHost (Sender_setMtu sampleSender 576)
      (Reachable.step sampleSender _
        (Reachable.new ("eth0") ("203.0.113.5") ("192.0.2.254") 0 ("icmp") false sampleSender
          rfl)
        (Step.setMtu sampleSender 576))).1,
   (synchronized_mode_never_on rfcCodec sampleHost (Sender_setMtu sampleSender 576)
      (Reachable.step sampleSender _
        (Reachable.new ("eth0") ("203.0.113.5") ("192.0.2.254") 0 ("icmp") false sampleSender
          rfl)
        (Step.setMtu sampleSender 576))).2.2⟩

end CNetworking
